import Mathlib

/-!
# Verification of the claro-invoice-backend core pipeline

A shallow embedding, in Lean 4, of the logic of `src/xml_parser.py`,
`src/rules_engine.py` and the reconciliation comparator of `src/main.py`
from the claro-invoice-backend repository, together with theorems settling
the frozen claims about it.

Modelling conventions:
* Python `float` values are modelled by `ℚ` (exact rationals); the spec's
  numeric statements are about decimal values, all of which are exact here.
* Python `float(s)` string conversion is modelled by `pyFloat`, covering the
  numeric-literal grammar (sign, digits, decimal point, exponent); a failing
  conversion (Python `ValueError`/`TypeError`) is `none`.
* Python dynamic values (`Any`) are modelled by the tagged type `Value`
  (`none` | `str` | `num` | `bool`), and `str(x)` by `pyStr`.
* `datetime.date` is modelled by `PyDate`; the ambient clock `date.today()`
  is passed as an explicit parameter wherever the source calls it, making
  the source's clock dependence visible in the model.
* `xml.etree.ElementTree` element trees are modelled by `XmlElem`; the
  limited XPath dialect used by the source (`tag`, `.`, `..`, `.//`,
  `[@attr="v"]`, namespace prefixes) is implemented by `et_findall`/`et_find`.
-/

namespace Claro

/-! ## Python dynamic values and number conversion -/

/-- A Python dynamic (`Any`) value as used by the rules engine and the
reconciliation comparator: `None`, a string, a float (as `ℚ`) or a bool. -/
inductive Value where
  | none
  | str (s : String)
  | num (q : ℚ)
  | bool (b : Bool)
deriving DecidableEq, Repr

/-- Value of a list of decimal digit characters. -/
def digitsVal (cs : List Char) : ℕ :=
  cs.foldl (fun a c => a * 10 + (c.toNat - 48)) 0

/-- Python `s.strip()` (kernel-computable replacement for `String.trim`). -/
def pyTrim (s : String) : String :=
  String.mk (((s.toList.dropWhile Char.isWhitespace).reverse.dropWhile Char.isWhitespace).reverse)

/-- `c in s` for a single character. -/
def chContains (s : String) (c : Char) : Bool :=
  s.toList.contains c

/-- First index at which `needle` occurs in `hay` (`some 0` for an empty
needle), the primitive behind substring search, split and replace. -/
def findSubstrIdx (hay needle : List Char) : Option ℕ :=
  (List.range (hay.length + 1)).find? fun i => (hay.drop i).take needle.length == needle

/-- Python substring test `needle in hay`. -/
def strContains (hay needle : String) : Bool :=
  (findSubstrIdx hay.toList needle.toList).isSome

/-- Replace every non-overlapping occurrence, left to right; `fuel` bounds
the iteration count (each step consumes at least one character of a
non-empty needle, so `hay.length + 1` always suffices). -/
def replaceChAux (fuel : ℕ) (hay needle repl : List Char) : List Char :=
  match fuel with
  | 0 => hay
  | fuel + 1 =>
    match findSubstrIdx hay needle with
    | some i => hay.take i ++ repl ++ replaceChAux fuel (hay.drop (i + needle.length)) needle repl
    | Option.none => hay

/-- Python `s.replace(old, new)` for a non-empty `old` (the only form the
source uses). -/
def pyReplace (s old new : String) : String :=
  if old = "" then s
  else String.mk (replaceChAux (s.toList.length + 1) s.toList old.toList new.toList)

/-- Split at every non-overlapping occurrence, left to right, with the same
fuel bound as `replaceChAux`. -/
def splitOnChAux (fuel : ℕ) (hay needle : List Char) : List (List Char) :=
  match fuel with
  | 0 => [hay]
  | fuel + 1 =>
    match findSubstrIdx hay needle with
    | some i => hay.take i :: splitOnChAux fuel (hay.drop (i + needle.length)) needle
    | Option.none => [hay]

/-- Python `s.split(sep)` for a non-empty separator. -/
def pySplitOn (s sep : String) : List String :=
  if sep = "" then [s]
  else (splitOnChAux (s.toList.length + 1) s.toList sep.toList).map String.mk

/-- Python `s.lower()` (ASCII model). -/
def pyToLower (s : String) : String :=
  String.mk (s.toList.map Char.toLower)

/-- Python `s[:n]`. -/
def pyTake (s : String) (n : ℕ) : String :=
  String.mk (s.toList.take n)

/-- Python `s[n:]`. -/
def pyDrop (s : String) (n : ℕ) : String :=
  String.mk (s.toList.drop n)

/-- Python `s[:-n]`. -/
def pyDropRight (s : String) (n : ℕ) : String :=
  String.mk (s.toList.take (s.toList.length - n))

/-- Accumulating scanner behind `pyWords`: the first argument is the input,
the second the current word reversed. -/
def wordsChAux : List Char → List Char → List (List Char)
  | [], acc => if acc.isEmpty then [] else [acc.reverse]
  | c :: cs, acc =>
    if c.isWhitespace then
      if acc.isEmpty then wordsChAux cs [] else acc.reverse :: wordsChAux cs []
    else wordsChAux cs (c :: acc)

/-- The whitespace-delimited words of a string — Python `s.split()` (no
empty words). -/
def pyWords (s : String) : List String :=
  (wordsChAux s.toList []).map String.mk

/-- Python `int(s)` on an all-digits string. -/
def pyInt (s : String) : ℕ :=
  digitsVal s.toList

/-- The string-level stage of the Python `float(s)` model: strip
surrounding whitespace and decompose an optionally signed decimal literal
with optional fraction and optional exponent into (negative?, integer
digits, fraction digits, exponent negative?, exponent digits). `none`
models `ValueError`. (The special literals `inf`/`nan` and PEP-515
underscores are outside the model.) -/
def pyFloatParse (s : String) : Option (Bool × List Char × List Char × Bool × List Char) :=
  let cs := (pyTrim s).toList
  let (neg, cs) : Bool × List Char :=
    match cs with
    | '+' :: rest => (false, rest)
    | '-' :: rest => (true, rest)
    | _ => (false, cs)
  let (ipart, cs) := cs.span Char.isDigit
  let (fpart, cs) : Option (List Char) × List Char :=
    match cs with
    | '.' :: rest =>
      let (f, r) := rest.span Char.isDigit
      (some f, r)
    | _ => (Option.none, cs)
  if ipart.isEmpty && (fpart.getD []).isEmpty then Option.none
  else
    match cs with
    | [] => some (neg, ipart, fpart.getD [], false, [])
    | e :: rest =>
      if e = 'e' ∨ e = 'E' then
        let (eneg, rest) : Bool × List Char :=
          match rest with
          | '+' :: r => (false, r)
          | '-' :: r => (true, r)
          | _ => (false, rest)
        let (ed, rest) := rest.span Char.isDigit
        if ed.isEmpty ∨ ¬ rest.isEmpty then Option.none
        else some (neg, ipart, fpart.getD [], eneg, ed)
      else Option.none

/-- The numeric value of a decomposed float literal. -/
def pyFloatVal : Bool × List Char × List Char × Bool × List Char → ℚ
  | (neg, ipart, fpart, eneg, ed) =>
    let mant : ℚ := (digitsVal ipart : ℚ) + (digitsVal fpart : ℚ) / ((10 : ℚ) ^ fpart.length)
    let sgn : ℚ := if neg then -1 else 1
    if eneg then sgn * mant / ((10 : ℚ) ^ digitsVal ed)
    else sgn * mant * ((10 : ℚ) ^ digitsVal ed)

/-- Model of Python `float(s)` on strings. -/
def pyFloat (s : String) : Option ℚ :=
  (pyFloatParse s).map pyFloatVal

/-- Decimal rendering of a rational whose denominator divides a power of
ten, used to model Python `str`/`repr` of a float (`119000.0`, `19.0`, …).
Rationals outside that range render as a fraction; they do not arise from
the parsed data. -/
def floatRepr (q : ℚ) : String :=
  if q.den = 1 then toString q.num ++ ".0"
  else
    match (List.range 30).find? (fun k => (10 : ℕ) ^ k % q.den = 0) with
    | some k =>
      let n : ℤ := q.num * ((10 : ℕ) ^ k / q.den : ℕ)
      let ds := (toString n.natAbs).toList
      let ds := if ds.length ≤ k then List.replicate (k + 1 - ds.length) '0' ++ ds else ds
      (if n < 0 then "-" else "") ++ String.mk (ds.take (ds.length - k)) ++ "." ++ String.mk (ds.drop (ds.length - k))
    | Option.none => toString q.num ++ "/" ++ toString q.den

/-- Model of Python `str(x)` on a dynamic value. -/
def pyStr : Value → String
  | .none => "None"
  | .str s => s
  | .num q => floatRepr q
  | .bool b => if b then "True" else "False"

/-- Python `s.count(c)` for a single-character needle. -/
def countOcc (s : String) (c : Char) : ℕ :=
  s.toList.count c

/-- Python string truthiness-based `a or b` (empty string is falsy). -/
def pyOr (a b : String) : String :=
  if a = "" then b else a

/-- `s if s else None`, the source's idiom for optional string fields. -/
def optStr (s : String) : Option String :=
  if s = "" then Option.none else some s

/-- Python `s.isdigit()` (restricted to ASCII digits). -/
def pyIsdigit (s : String) : Bool :=
  !(s == "") && s.toList.all Char.isDigit

/-- Round to the nearest integer, ties to even — Python's `round`/format
rounding mode, used only to build report messages. -/
def roundHalfEven (q : ℚ) : ℤ :=
  let f := ⌊q⌋
  let r := q - f
  if r < 1/2 then f else if 1/2 < r then f + 1 else if f % 2 = 0 then f else f + 1

/-- Insert thousands separators into a digit string, rightmost group of 3. -/
def groupDigits (ds : List Char) : List Char :=
  ((ds.reverse.enum.map fun p =>
    if p.1 % 3 = 0 ∧ p.1 ≠ 0 then [',', p.2] else [p.2]).flatten).reverse

/-- Model of the Python format `f"{x:,.0f}"`: round to an integer and
comma-group the digits. Used only in report messages. -/
def formatMoney (q : ℚ) : String :=
  let n := roundHalfEven q
  (if n < 0 then "-" else "") ++ String.mk (groupDigits (toString n.natAbs).toList)

/-- Model of the Python format `f"{x:.1f}"`. Used only in report messages. -/
def format1f (q : ℚ) : String :=
  let n := roundHalfEven (q * 10)
  (if n < 0 then "-" else "") ++ toString (n.natAbs / 10) ++ "." ++ toString (n.natAbs % 10)

/-! ## Dates -/

/-- A Python `datetime.date`. -/
structure PyDate where
  year : ℕ
  month : ℕ
  day : ℕ
deriving DecidableEq, Repr

def isLeapYear (y : ℕ) : Bool :=
  (y % 4 = 0 && y % 100 ≠ 0) || y % 400 = 0

def daysInMonth (y m : ℕ) : ℕ :=
  if m = 2 then (if isLeapYear y then 29 else 28)
  else if m = 4 ∨ m = 6 ∨ m = 9 ∨ m = 11 then 30
  else 31

/-- Model of Python `date.fromisoformat`: accepts exactly `YYYY-MM-DD` with a
calendar-valid date; anything else raises (`none`). -/
def parseIsoDate (s : String) : Option PyDate :=
  match s.toList with
  | [y1, y2, y3, y4, '-', m1, m2, '-', d1, d2] =>
    if [y1, y2, y3, y4, m1, m2, d1, d2].all Char.isDigit then
      let y := digitsVal [y1, y2, y3, y4]
      let m := digitsVal [m1, m2]
      let d := digitsVal [d1, d2]
      if 1 ≤ y ∧ 1 ≤ m ∧ m ≤ 12 ∧ 1 ≤ d ∧ d ≤ daysInMonth y m then
        some ⟨y, m, d⟩
      else Option.none
    else Option.none
  | _ => Option.none

/-! ## ElementTree model

`XmlElem` models an `xml.etree.ElementTree.Element`: an expanded tag (ET
stores tags in `{uri}local` Clark notation once a namespace applies),
attributes, optional text and ordered children. The path evaluator
implements the XPath subset the source uses with `find`/`findall`:
child steps `pfx:tag`, `.` (self), `..` (parent, dropping contexts that
climb above the start element), `//` (descendant-or-self) and one
attribute predicate `[@attr="v"]`, with prefixes resolved through the
source's `NAMESPACES` table. -/

structure XmlElem where
  tag : String
  attrs : List (String × String)
  text : Option String
  children : List XmlElem
deriving Repr

/-- The opening brace as text (for Clark-notation tags). -/
def lb : String := "\x7b"

/-- The closing brace as text (for Clark-notation tags). -/
def rb : String := "\x7d"

/-- `src/xml_parser.py` `NAMESPACES` (DIAN UBL 2.1 namespace prefixes). -/
def NAMESPACES : List (String × String) := [
  ("cbc", "urn:oasis:names:specification:ubl:schema:xsd:CommonBasicComponents-2"),
  ("cac", "urn:oasis:names:specification:ubl:schema:xsd:CommonAggregateComponents-2"),
  ("ext", "urn:oasis:names:specification:ubl:schema:xsd:CommonExtensionComponents-2"),
  ("sts", "dian:gov:co:facturaelectronica:Structures-2-1"),
  ("ds", "http://www.w3.org/2000/09/xmldsig#"),
  ("xades", "http://uri.etsi.org/01903/v1.3.2#"),
  ("xades141", "http://uri.etsi.org/01903/v1.4.1#")]

/-- Clark-notation expanded tag `{uri}local`. -/
def clarkTag (uri local_ : String) : String :=
  lb ++ uri ++ rb ++ local_

/-- Resolve a `pfx:local` path token to its expanded tag (unknown prefixes
and unprefixed tokens are kept as written, as ET does for paths without a
matching namespace entry). -/
def resolveTag (tok : String) : String :=
  match pySplitOn tok ":" with
  | [pfx, local_] =>
    match NAMESPACES.lookup pfx with
    | some uri => clarkTag uri local_
    | Option.none => tok
  | _ => tok

/-- One step of the XPath subset used by the source. -/
inductive PathStep where
  | self
  | parent
  | descendant
  | child (tag : String) (pred : Option (String × String))
deriving Repr

/-- Parse one `/`-separated path token (`.`, `..`, the empty token of `//`,
or a tag with an optional `[@attr="v"]` predicate). -/
def parseStep (tok : String) : PathStep :=
  if tok = "." then .self
  else if tok = ".." then .parent
  else if tok = "" then .descendant
  else
    match pySplitOn tok "[@" with
    | [t, p] =>
      let p := pyDropRight p 1
      match pySplitOn p "=" with
      | [a, v] => .child (resolveTag t) (some (a, pyDropRight (pyDrop v 1) 1))
      | _ => .child (resolveTag tok) Option.none
    | _ => .child (resolveTag tok) Option.none

def parsePath (path : String) : List PathStep :=
  (pySplitOn path "/").map parseStep

/-- A context of the evaluator: an element together with its ancestors
(nearest first), so that `..` can climb without parent pointers. -/
abbrev XmlCtx := XmlElem × List XmlElem

/-- All descendant-or-self contexts of an element, in document order. -/
def descOrSelf (e : XmlElem) (anc : List XmlElem) : List XmlCtx :=
  match e with
  | ⟨t, a, x, cs⟩ =>
    (⟨t, a, x, cs⟩, anc) ::
      (cs.attach.map fun c => descOrSelf c.1 (⟨t, a, x, cs⟩ :: anc)).flatten
decreasing_by
  have := List.sizeOf_lt_of_mem c.2
  simp only [XmlElem.mk.sizeOf_spec]
  omega

/-- Whether an element satisfies an optional `[@attr="v"]` predicate. -/
def predHolds (pred : Option (String × String)) (e : XmlElem) : Bool :=
  match pred with
  | Option.none => true
  | some (a, v) => e.attrs.lookup a == some v

/-- Apply one path step to a list of contexts (document order preserved). -/
def evalStep (ctxs : List XmlCtx) : PathStep → List XmlCtx
  | .self => ctxs
  | .parent =>
    ctxs.filterMap fun c =>
      match c.2 with
      | [] => Option.none
      | a :: rest => some (a, rest)
  | .descendant => (ctxs.map fun c => descOrSelf c.1 c.2).flatten
  | .child t pred =>
    (ctxs.map fun c =>
      (c.1.children.filter fun ch => ch.tag == t && predHolds pred ch).map
        fun ch => ((ch, c.1 :: c.2) : XmlCtx)).flatten

/-- `element.findall(path, NAMESPACES)`. -/
def et_findall (e : XmlElem) (path : String) : List XmlElem :=
  ((parsePath path).foldl evalStep [(e, [])]).map (·.1)

/-- `element.find(path, NAMESPACES)`: first match in document order. -/
def et_find (e : XmlElem) (path : String) : Option XmlElem :=
  (et_findall e path).head?

/-- `element.get(key, default)`: attribute lookup. -/
def attrGet (e : XmlElem) (key default_ : String) : String :=
  (e.attrs.lookup key).getD default_

/-- Python truthiness-based `find(..) or find(..)` on optional elements: an
`Element` is falsy when it has no children (`Element.__bool__` is
`len(children) > 0`), `None` is falsy. -/
def etOr (a b : Option XmlElem) : Option XmlElem :=
  match a with
  | some e => if e.children.isEmpty then b else some e
  | Option.none => b

/-- `src/xml_parser.py` `_find_text`: text at a path, trimmed; the default
when the node is missing or its text is `None` or empty. -/
def find_text (element : XmlElem) (path default_ : String) : String :=
  match et_find element path with
  | some node =>
    match node.text with
    | some t => if t ≠ "" then pyTrim t else default_
    | Option.none => default_
  | Option.none => default_

/-- `src/xml_parser.py` `_find_float`: float at a path; commas are stripped
before conversion and a failed conversion yields the default. -/
def find_float (element : XmlElem) (path : String) (default_ : ℚ) : ℚ :=
  let text := find_text element path ""
  if text ≠ "" then
    match pyFloat (pyReplace text "," "") with
    | some f => f
    | Option.none => default_
  else default_

/-- `src/xml_parser.py` `_parse_date`: ISO date or `None`. -/
def parse_date (date_str : String) : Option PyDate :=
  if date_str = "" then Option.none
  else parseIsoDate date_str

/-! ## The invoice data model (`src/models.py`), floats as `ℚ` -/

structure TaxDetail where
  tax_scheme_id : String
  tax_name : String
  taxable_amount : ℚ
  tax_percentage : ℚ
  tax_amount : ℚ
deriving DecidableEq, Repr

structure PartyInfo where
  company_id : String
  registration_name : String
  tax_level_code : Option String
  tax_scheme_id : Option String
  address_line : Option String
  city_name : Option String
  department : Option String
  country_code : Option String
  email : Option String
  phone : Option String
  supplier_assigned_account_id : Option String
deriving DecidableEq, Repr

structure InvoiceLine where
  line_id : String
  description : String
  quantity : ℚ
  unit_code : String
  unit_price : ℚ
  line_extension_amount : ℚ
  product_code : Option String
  tax_amount : Option ℚ
deriving DecidableEq, Repr

structure OrderReference where
  order_id : String
  sales_order_id : Option String
deriving DecidableEq, Repr

structure AttachmentReference where
  reference_id : String
  reference_type : String
  description : Option String
  found_in_zip : Bool
  matched_filename : Option String
deriving DecidableEq, Repr

structure PaymentMeans where
  payment_means_id : String
  payment_means_code : String
  payment_due_date : Option PyDate
deriving DecidableEq, Repr

structure InvoiceAuthorization where
  authorization_number : Option String
  authorization_date : Option PyDate
  authorization_end_date : Option PyDate
  autz_prefix : Option String
  range_from : Option String
  range_to : Option String
deriving DecidableEq, Repr

structure InvoicePeriod where
  start_date : Option PyDate
  end_date : Option PyDate
  description : Option String
deriving DecidableEq, Repr

/-- `MonetaryTotal`. The two `Optional[float]` fields of the source model
default to `0` and are always given a float by the parser, so they are plain
rationals here. -/
structure MonetaryTotal where
  line_extension_amount : ℚ
  tax_exclusive_amount : ℚ
  tax_inclusive_amount : ℚ
  allowance_total_amount : ℚ
  charge_total_amount : ℚ
  payable_amount : ℚ
deriving DecidableEq, Repr

structure XMLInvoiceData where
  invoice_number : String
  cufe : String
  issue_date : PyDate
  issue_time : Option String
  due_date : Option PyDate
  currency_code : String
  invoice_type_code : String
  notes : List String
  supplier : PartyInfo
  customer : PartyInfo
  payment_means : List PaymentMeans
  invoice_period : Option InvoicePeriod
  authorization : Option InvoiceAuthorization
  taxes : List TaxDetail
  withholding_taxes : List TaxDetail
  monetary_total : MonetaryTotal
  total_discount : ℚ
  total_charges : ℚ
  prepaid_amount : ℚ
  lines : List InvoiceLine
  line_count : ℕ
  order_reference : Option OrderReference
  qr_code : Option String
  total_iva : ℚ
  total_retenciones : ℚ
  attachment_references : List AttachmentReference
  raw_xml_path : Option String
deriving DecidableEq, Repr

/-! ## The invoice parser (`src/xml_parser.py`) -/

/-- `TAX_SCHEME_NAMES` of `src/xml_parser.py` (lines 31–38). -/
def TAX_SCHEME_NAMES : List (String × String) := [
  ("01", "IVA"),
  ("04", "INC"),
  ("05", "ReteIVA"),
  ("06", "ReteRenta"),
  ("07", "ReteICA"),
  ("ZZ", "Otros")]

/-- The scheme-name resolution of `_parse_tax` (line 178):
`TAX_SCHEME_NAMES.get(tax_scheme_id, f"Tax-{tax_scheme_id}")`. -/
def tax_scheme_name (tax_scheme_id : String) : String :=
  (TAX_SCHEME_NAMES.lookup tax_scheme_id).getD ("Tax-" ++ tax_scheme_id)

/-- Python `sum(...)` over floats: a left fold from 0. -/
def pySum (l : List ℚ) : ℚ :=
  l.foldl (· + ·) 0

/-- `src/xml_parser.py` `_parse_party` (lines 70–155). -/
def parse_party (party_element : XmlElem) : PartyInfo :=
  let party := (et_find party_element "cac:Party").getD party_element
  let party_identification := et_find party "cac:PartyIdentification"
  let company_id :=
    match party_identification with
    | some pi => find_text pi "cbc:ID" ""
    | Option.none => ""
  let party_tax_scheme := et_find party "cac:PartyTaxScheme"
  let (registration_name, company_id, tax_level_code, tax_scheme_id) :=
    match party_tax_scheme with
    | some pts =>
      (find_text pts "cbc:RegistrationName" "",
       pyOr company_id (find_text pts "cbc:CompanyID" ""),
       find_text pts "cbc:TaxLevelCode" "",
       match et_find pts "cac:TaxScheme" with
       | some ts => find_text ts "cbc:ID" ""
       | Option.none => "")
    | Option.none => ("", company_id, "", "")
  let customer_party := et_find party_element "cac:Party"
  let supplier_assigned_account_id :=
    match customer_party with
    | some cp =>
      let s := find_text cp
        "cac:PartyIdentification/cbc:ID[@schemeID=\"31\"]/../../cbc:SupplierAssignedAccountID" ""
      pyOr s (find_text party_element ".//cbc:SupplierAssignedAccountID" "")
    | Option.none => ""
  let registration_name :=
    match et_find party "cac:PartyLegalEntity" with
    | some ple => pyOr registration_name (find_text ple "cbc:RegistrationName" "")
    | Option.none => registration_name
  let registration_name :=
    match et_find party "cac:PartyName" with
    | some pn => if registration_name = "" then find_text pn "cbc:Name" "" else registration_name
    | Option.none => registration_name
  let address := etOr (et_find party ".//cac:Address") (et_find party ".//cac:PhysicalLocation/cac:Address")
  let (address_line, city_name, department, country_code) :=
    match address with
    | some addr =>
      (match et_find addr "cac:AddressLine" with
       | some al => find_text al "cbc:Line" ""
       | Option.none => "",
       find_text addr "cbc:CityName" "",
       find_text addr "cbc:CountrySubentity" "",
       match et_find addr "cac:Country" with
       | some c => find_text c "cbc:IdentificationCode" ""
       | Option.none => "")
    | Option.none => ("", "", "", "")
  let (email, phone) :=
    match et_find party "cac:Contact" with
    | some contact => (find_text contact "cbc:ElectronicMail" "", find_text contact "cbc:Telephone" "")
    | Option.none => ("", "")
  { company_id := company_id,
    registration_name := registration_name,
    tax_level_code := optStr tax_level_code,
    tax_scheme_id := optStr tax_scheme_id,
    address_line := optStr address_line,
    city_name := optStr city_name,
    department := optStr department,
    country_code := optStr country_code,
    email := optStr email,
    phone := optStr phone,
    supplier_assigned_account_id := optStr supplier_assigned_account_id }

/-- `src/xml_parser.py` `_parse_tax` (lines 158–186): parse a `TaxTotal` or
`WithholdingTaxTotal` element into a `TaxDetail`. -/
def parse_tax (tax_element : XmlElem) : TaxDetail :=
  let tax_subtotal := (et_find tax_element "cac:TaxSubtotal").getD tax_element
  let taxable_amount := find_float tax_subtotal "cbc:TaxableAmount" 0
  let tax_amount := find_float tax_subtotal "cbc:TaxAmount" 0
  let tax_category := et_find tax_subtotal "cac:TaxCategory"
  let (percentage, tax_scheme_id) :=
    match tax_category with
    | some tc =>
      (find_float tc "cbc:Percent" 0,
       match et_find tc "cac:TaxScheme" with
       | some ts => find_text ts "cbc:ID" ""
       | Option.none => "")
    | Option.none => (0, "")
  { tax_scheme_id := tax_scheme_id,
    tax_name := tax_scheme_name tax_scheme_id,
    taxable_amount := taxable_amount,
    tax_percentage := percentage,
    tax_amount := tax_amount }

/-- `src/xml_parser.py` `_parse_invoice_line` (lines 189–244). The only
fallible step of the parser: `float(quantity_elem.text)` is an unguarded
conversion, so a malformed quantity raises (`none`). -/
def parse_invoice_line (line_element : XmlElem) : Option InvoiceLine := do
  let line_id := find_text line_element "cbc:ID" ""
  let quantity_elem := et_find line_element "cbc:InvoicedQuantity"
  let quantity : ℚ ←
    match quantity_elem with
    | some qe =>
      match qe.text with
      | some t => if t ≠ "" then pyFloat t else some 0
      | Option.none => some 0
    | Option.none => some 0
  let unit_code :=
    match quantity_elem with
    | some qe => attrGet qe "unitCode" "EA"
    | Option.none => "EA"
  let line_extension := find_float line_element "cbc:LineExtensionAmount" 0
  let item := et_find line_element "cac:Item"
  let (description, product_code) :=
    match item with
    | some it =>
      let description := find_text it "cbc:Description" ""
      let description := if description = "" then find_text it "cbc:Name" "" else description
      let product_code :=
        match et_find it "cac:StandardItemIdentification" with
        | some sid => find_text sid "cbc:ID" ""
        | Option.none => ""
      let product_code :=
        if product_code = "" then
          match et_find it "cac:SellersItemIdentification" with
          | some si => find_text si "cbc:ID" ""
          | Option.none => product_code
        else product_code
      (description, product_code)
    | Option.none => ("", "")
  let unit_price :=
    match et_find line_element "cac:Price" with
    | some pe => find_float pe "cbc:PriceAmount" 0
    | Option.none => 0
  let tax_amount : Option ℚ :=
    match et_find line_element "cac:TaxTotal" with
    | some tt => some (find_float tt "cbc:TaxAmount" 0)
    | Option.none => Option.none
  some
    { line_id := line_id,
      description := description,
      quantity := quantity,
      unit_code := unit_code,
      unit_price := unit_price,
      line_extension_amount := line_extension,
      product_code := optStr product_code,
      tax_amount := tax_amount }

/-- `src/xml_parser.py` `_parse_monetary_total` (lines 247–256). -/
def parse_monetary_total (total_element : XmlElem) : MonetaryTotal :=
  { line_extension_amount := find_float total_element "cbc:LineExtensionAmount" 0,
    tax_exclusive_amount := find_float total_element "cbc:TaxExclusiveAmount" 0,
    tax_inclusive_amount := find_float total_element "cbc:TaxInclusiveAmount" 0,
    allowance_total_amount := find_float total_element "cbc:AllowanceTotalAmount" 0,
    charge_total_amount := find_float total_element "cbc:ChargeTotalAmount" 0,
    payable_amount := find_float total_element "cbc:PayableAmount" 0 }

/-- Whether a maximal whitespace-free run contains an inner `searchqr` with
at least one character before it and one after it (the backtracking
condition of the QR regex). -/
def qrRunOk (run : List Char) : Bool :=
  (List.range run.length).any fun j =>
    decide (1 ≤ j) && ((run.drop j).take 8 == "searchqr".toList) && decide (j + 8 < run.length)

/-- Try the QR regex `https?://[^\s]+searchqr[^\s]+` at the start of `cs`:
on success the match runs to the end of the maximal whitespace-free run
(both `[^\s]+` are greedy and the trailing one absorbs the rest). -/
def qrMatchAt (cs : List Char) : Option (List Char) :=
  let scheme : Option ℕ :=
    if cs.take 7 == "http://".toList then some 7
    else if cs.take 8 == "https://".toList then some 8
    else Option.none
  match scheme with
  | some n =>
    let run := (cs.drop n).takeWhile (fun c => !c.isWhitespace)
    if qrRunOk run then some (cs.take n ++ run) else Option.none
  | Option.none => Option.none

/-- Model of `re.search(r'(https?://[^\s]+searchqr[^\s]+)', note)` followed
by `group(1)` (lines 370–372): the leftmost match of the QR-URL pattern. -/
def searchQrUrl (note : String) : Option String :=
  let cs := note.toList
  (List.range cs.length).findSome? fun i => (qrMatchAt (cs.drop i)).map String.mk

/-- `src/xml_parser.py` `parse_dian_xml` (lines 328–513), modelled from the
already-built element tree onward: the byte-level steps upstream of this
boundary — the `AttachedDocument` envelope detection with its regex
extraction (lines 340–345, `_extract_invoice_from_attached_document`) and
`ET.fromstring` — are deterministic string functions whose outputs are the
`attachment_refs` list and the `root` element passed here. `today` is the
ambient `date.today()` read at line 488. The one failure (`none`) is the
unguarded quantity conversion of `_parse_invoice_line`; malformed XML fails
upstream of this boundary. -/
def parse_dian_xml (today : PyDate) (attachment_refs : List AttachmentReference)
    (root : XmlElem) : Option XMLInvoiceData := do
  let invoice_number := find_text root "cbc:ID" ""
  let cufe := find_text root "cbc:UUID" ""
  let issue_date_str := find_text root "cbc:IssueDate" ""
  let issue_time := find_text root "cbc:IssueTime" ""
  let due_date_str := find_text root "cbc:DueDate" ""
  let currency_code := find_text root "cbc:DocumentCurrencyCode" "COP"
  let invoice_type_code := find_text root "cbc:InvoiceTypeCode" "01"
  let line_count_numeric := find_text root "cbc:LineCountNumeric" "0"
  let notes := (et_findall root "cbc:Note").filterMap fun note_elem =>
    match note_elem.text with
    | some t => if t ≠ "" then some (pyTrim t) else Option.none
    | Option.none => Option.none
  let qr_code := notes.findSome? fun note =>
    if strContains note "catalogo-vpfe.dian.gov.co" || strContains note "searchqr" then
      searchQrUrl note
    else Option.none
  let supplier :=
    match et_find root "cac:AccountingSupplierParty" with
    | some se => parse_party se
    | Option.none =>
      ({ company_id := "", registration_name := "", tax_level_code := Option.none,
         tax_scheme_id := Option.none, address_line := Option.none, city_name := Option.none,
         department := Option.none, country_code := Option.none, email := Option.none,
         phone := Option.none, supplier_assigned_account_id := Option.none } : PartyInfo)
  let customer :=
    match et_find root "cac:AccountingCustomerParty" with
    | some ce => parse_party ce
    | Option.none =>
      ({ company_id := "", registration_name := "", tax_level_code := Option.none,
         tax_scheme_id := Option.none, address_line := Option.none, city_name := Option.none,
         department := Option.none, country_code := Option.none, email := Option.none,
         phone := Option.none, supplier_assigned_account_id := Option.none } : PartyInfo)
  let payment_means_list := (et_findall root "cac:PaymentMeans").filterMap fun pm_elem =>
    let pm_id := find_text pm_elem "cbc:ID" ""
    let pm_code := find_text pm_elem "cbc:PaymentMeansCode" ""
    let pm_due_date := find_text pm_elem "cbc:PaymentDueDate" ""
    if pm_code ≠ "" then
      some ({ payment_means_id := pyOr pm_id "1",
              payment_means_code := pm_code,
              payment_due_date := parse_date pm_due_date } : PaymentMeans)
    else Option.none
  let invoice_period :=
    match et_find root "cac:InvoicePeriod" with
    | some period_elem =>
      some ({ start_date := parse_date (find_text period_elem "cbc:StartDate" ""),
              end_date := parse_date (find_text period_elem "cbc:EndDate" ""),
              description := optStr (find_text period_elem "cbc:Description" "") } : InvoicePeriod)
    | Option.none => (Option.none : Option InvoicePeriod)
  let taxes := ((et_findall root "cac:TaxTotal").map parse_tax).filter
    fun tax => tax.tax_scheme_id ≠ ""
  let withholding_taxes := ((et_findall root "cac:WithholdingTaxTotal").map parse_tax).filter
    fun tax => tax.tax_scheme_id ≠ ""
  let monetary_total :=
    match et_find root "cac:LegalMonetaryTotal" with
    | some mte => parse_monetary_total mte
    | Option.none =>
      ({ line_extension_amount := 0, tax_exclusive_amount := 0, tax_inclusive_amount := 0,
         allowance_total_amount := 0, charge_total_amount := 0, payable_amount := 0 } : MonetaryTotal)
  let prepaid_amount :=
    match et_find root "cac:PrepaidPayment" with
    | some pe => find_float pe "cbc:PaidAmount" 0
    | Option.none => 0
  let dc := (et_findall root "cac:AllowanceCharge").foldl (fun p ac =>
      let charge_indicator := find_text ac "cbc:ChargeIndicator" "false"
      let amount := find_float ac "cbc:Amount" 0
      if pyToLower charge_indicator = "true" then (p.1, p.2 + amount) else (p.1 + amount, p.2))
    ((0 : ℚ), (0 : ℚ))
  let total_discount := dc.1
  let total_charges := dc.2
  let lines ← (et_findall root "cac:InvoiceLine").mapM parse_invoice_line
  let order_ref_elem := et_find root "cac:OrderReference"
  let (order_reference, attachment_refs) :=
    match order_ref_elem with
    | some ore =>
      let order_id := find_text ore "cbc:ID" ""
      let sales_order_id := find_text ore "cbc:SalesOrderID" ""
      if order_id ≠ "" then
        (some ({ order_id := order_id, sales_order_id := optStr sales_order_id } : OrderReference),
         attachment_refs ++ [({ reference_id := order_id,
                                reference_type := "orden_compra",
                                description := some "Orden de Compra referenciada en factura",
                                found_in_zip := false,
                                matched_filename := Option.none } : AttachmentReference)])
      else ((Option.none : Option OrderReference), attachment_refs)
    | Option.none => ((Option.none : Option OrderReference), attachment_refs)
  let total_iva := pySum ((taxes.filter fun t => t.tax_scheme_id == "01").map (·.tax_amount))
  let total_retenciones := pySum (withholding_taxes.map (·.tax_amount))
  some
    { invoice_number := invoice_number,
      cufe := cufe,
      issue_date := (parse_date issue_date_str).getD today,
      issue_time := optStr issue_time,
      due_date := parse_date due_date_str,
      currency_code := currency_code,
      invoice_type_code := invoice_type_code,
      notes := notes,
      supplier := supplier,
      customer := customer,
      payment_means := payment_means_list,
      invoice_period := invoice_period,
      authorization := Option.none,
      taxes := taxes,
      withholding_taxes := withholding_taxes,
      monetary_total := monetary_total,
      total_discount := total_discount,
      total_charges := total_charges,
      prepaid_amount := prepaid_amount,
      lines := lines,
      line_count := if pyIsdigit line_count_numeric then pyInt line_count_numeric else lines.length,
      order_reference := order_reference,
      qr_code := qr_code,
      total_iva := total_iva,
      total_retenciones := total_retenciones,
      attachment_references := attachment_refs,
      raw_xml_path := Option.none }

/-! ## The rules engine (`src/rules_engine.py`) -/

/-- Rule severity (`RuleType` of `src/models.py`). -/
inductive RuleType where
  | blocking
  | warning
deriving DecidableEq, BEq, Repr

/-- Rule outcome (`RuleStatus` of `src/models.py`). -/
inductive RuleStatus where
  | passed
  | failed
  | skipped
deriving DecidableEq, BEq, Repr

/-- `RuleCondition`: the single condition of a dynamic rule. -/
structure RuleCondition where
  campo : String
  operador : String
  valor : Value
deriving DecidableEq, Repr

/-- `ValidationRule` (the `condicion_condicional` field, never read by the
engine, is omitted). -/
structure ValidationRule where
  id : String
  nombre : String
  descripcion : String
  tipo : RuleType
  fuentes : List String
  condicion : Option RuleCondition
  is_custom : Bool
deriving DecidableEq, Repr

/-- A structured entry of a `RuleResult.details` dict. -/
inductive Detail where
  | num (q : ℚ)
  | str (s : String)
  | strList (l : List String)
  | val (v : Value)
deriving DecidableEq, Repr

/-- `RuleResult`: details are an ordered key/value dict. -/
structure RuleResult where
  rule_id : String
  rule_name : String
  status : RuleStatus
  message : String
  details : Option (List (String × Detail))
deriving DecidableEq, Repr

/-- `ValidationResult`; `timestamp` models `datetime.now()`, passed in
explicitly as a tick count. -/
structure ValidationResult where
  invoice_id : String
  timestamp : ℕ
  results : List RuleResult
  blocking_failures : ℕ
  warnings : ℕ
  passed : ℕ
  can_submit : Bool
deriving DecidableEq, Repr

namespace Rules

def rule_R001 : ValidationRule :=
  { id := "R001", nombre := "NIT Proveedor Válido",
    descripcion := "NIT del emisor debe existir en maestro de proveedores",
    tipo := .blocking, fuentes := ["xml"], condicion := Option.none, is_custom := false }

def rule_R002 : ValidationRule :=
  { id := "R002", nombre := "CUFE Presente",
    descripcion := "La factura debe tener CUFE válido de la DIAN",
    tipo := .blocking, fuentes := ["xml"], condicion := Option.none, is_custom := false }

def rule_R003 : ValidationRule :=
  { id := "R003", nombre := "Totales Consistentes",
    descripcion := "Subtotal + IVA - Retenciones debe ser igual al Total a Pagar",
    tipo := .warning, fuentes := ["xml"], condicion := Option.none, is_custom := false }

def rule_R004 : ValidationRule :=
  { id := "R004", nombre := "IVA Correcto",
    descripcion := "El porcentaje de IVA debe ser 19%",
    tipo := .warning, fuentes := ["xml"], condicion := Option.none, is_custom := false }

def rule_R005 : ValidationRule :=
  { id := "R005", nombre := "Referencia Orden de Compra",
    descripcion := "La factura debe tener referencia a una Orden de Compra",
    tipo := .warning, fuentes := ["xml"], condicion := Option.none, is_custom := false }

/-- `STATIC_RULES` of `src/rules_engine.py` (lines 19–55). -/
def STATIC_RULES : List ValidationRule :=
  [rule_R001, rule_R002, rule_R003, rule_R004, rule_R005]

/-- `VALID_NITS` (lines 58–64): the simulated SAP provider registry. -/
def VALID_NITS : List String :=
  ["830099847", "900123456", "800999888", "860001022", "900555444"]

/-- `RulesEngine._evaluate_r001` (lines 74–102). -/
def evaluate_r001 (xml_data : Option XMLInvoiceData) : RuleResult :=
  let rule := rule_R001
  match xml_data with
  | Option.none =>
    { rule_id := rule.id, rule_name := rule.nombre, status := .skipped,
      message := "Sin datos XML para validar", details := Option.none }
  | some xml_data =>
    let nit := xml_data.supplier.company_id
    if nit ∈ VALID_NITS then
      { rule_id := rule.id, rule_name := rule.nombre, status := .passed,
        message := "NIT " ++ nit ++ " (" ++ xml_data.supplier.registration_name ++ ") registrado en SAP",
        details := some [("nit", .str nit), ("nombre", .str xml_data.supplier.registration_name)] }
    else
      { rule_id := rule.id, rule_name := rule.nombre, status := .failed,
        message := "NIT " ++ nit ++ " NO encontrado en maestro de proveedores SAP",
        details := some [("nit", .str nit), ("valid_nits", .strList VALID_NITS)] }

/-- `RulesEngine._evaluate_r002` (lines 104–131). -/
def evaluate_r002 (xml_data : Option XMLInvoiceData) : RuleResult :=
  let rule := rule_R002
  match xml_data with
  | Option.none =>
    { rule_id := rule.id, rule_name := rule.nombre, status := .skipped,
      message := "Sin datos XML para validar", details := Option.none }
  | some xml_data =>
    let cufe := xml_data.cufe
    if cufe ≠ "" ∧ cufe.length > 10 then
      { rule_id := rule.id, rule_name := rule.nombre, status := .passed,
        message := "CUFE válido presente: " ++ pyTake cufe 20 ++ "...",
        details := some [("cufe", .str cufe)] }
    else
      { rule_id := rule.id, rule_name := rule.nombre, status := .failed,
        message := "CUFE no encontrado o inválido", details := Option.none }

/-- `RulesEngine._evaluate_r003` (lines 133–186). -/
def evaluate_r003 (xml_data : Option XMLInvoiceData) : RuleResult :=
  let rule := rule_R003
  match xml_data with
  | Option.none =>
    { rule_id := rule.id, rule_name := rule.nombre, status := .skipped,
      message := "Sin datos XML para validar", details := Option.none }
  | some xml_data =>
    let subtotal := xml_data.monetary_total.line_extension_amount
    let total_payable := xml_data.monetary_total.payable_amount
    let total_iva := pySum ((xml_data.taxes.filter fun t => t.tax_scheme_id == "01").map (·.tax_amount))
    let total_retenciones := pySum (xml_data.withholding_taxes.map (·.tax_amount))
    let calculated_total := subtotal + total_iva - total_retenciones
    let tolerance := total_payable * 0.01
    if |calculated_total - total_payable| ≤ tolerance then
      { rule_id := rule.id, rule_name := rule.nombre, status := .passed,
        message := "Totales consistentes: $" ++ formatMoney subtotal ++ " + $" ++ formatMoney total_iva
          ++ " - $" ++ formatMoney total_retenciones ++ " = $" ++ formatMoney total_payable,
        details := some [("subtotal", .num subtotal), ("iva", .num total_iva),
          ("retenciones", .num total_retenciones), ("total_calculado", .num calculated_total),
          ("total_factura", .num total_payable)] }
    else
      { rule_id := rule.id, rule_name := rule.nombre, status := .failed,
        message := "Totales inconsistentes: Calculado $" ++ formatMoney calculated_total
          ++ " vs Factura $" ++ formatMoney total_payable,
        details := some [("subtotal", .num subtotal), ("iva", .num total_iva),
          ("retenciones", .num total_retenciones), ("total_calculado", .num calculated_total),
          ("total_factura", .num total_payable),
          ("diferencia", .num |calculated_total - total_payable|)] }

/-- `RulesEngine._evaluate_r004` (lines 188–226). -/
def evaluate_r004 (xml_data : Option XMLInvoiceData) : RuleResult :=
  let rule := rule_R004
  match xml_data with
  | Option.none =>
    { rule_id := rule.id, rule_name := rule.nombre, status := .skipped,
      message := "Sin información de impuestos en XML", details := Option.none }
  | some xml_data =>
    if xml_data.taxes.isEmpty then
      { rule_id := rule.id, rule_name := rule.nombre, status := .skipped,
        message := "Sin información de impuestos en XML", details := Option.none }
    else
      match xml_data.taxes.find? (fun t => t.tax_scheme_id == "01") with
      | Option.none =>
        { rule_id := rule.id, rule_name := rule.nombre, status := .skipped,
          message := "No se encontró IVA en el XML", details := Option.none }
      | some iva_tax =>
        if iva_tax.tax_percentage = 19.0 then
          { rule_id := rule.id, rule_name := rule.nombre, status := .passed,
            message := "IVA correcto: " ++ floatRepr iva_tax.tax_percentage ++ "% ($"
              ++ formatMoney iva_tax.tax_amount ++ ")",
            details := some [("iva_percent", .num iva_tax.tax_percentage),
              ("iva_amount", .num iva_tax.tax_amount)] }
        else
          { rule_id := rule.id, rule_name := rule.nombre, status := .failed,
            message := "IVA es " ++ floatRepr iva_tax.tax_percentage ++ "% (esperado: 19%)",
            details := some [("iva_percent", .num iva_tax.tax_percentage),
              ("expected", .num 19.0)] }

/-- `RulesEngine._evaluate_r005` (lines 228–254). -/
def evaluate_r005 (xml_data : Option XMLInvoiceData) : RuleResult :=
  let rule := rule_R005
  match xml_data with
  | Option.none =>
    { rule_id := rule.id, rule_name := rule.nombre, status := .skipped,
      message := "Sin datos XML para validar", details := Option.none }
  | some xml_data =>
    match xml_data.order_reference with
    | some oref =>
      if oref.order_id ≠ "" then
        { rule_id := rule.id, rule_name := rule.nombre, status := .passed,
          message := "Orden de Compra referenciada: " ++ oref.order_id,
          details := some [("orden_compra", .str oref.order_id)] }
      else
        { rule_id := rule.id, rule_name := rule.nombre, status := .failed,
          message := "No se encontró referencia a Orden de Compra", details := Option.none }
    | Option.none =>
      { rule_id := rule.id, rule_name := rule.nombre, status := .failed,
        message := "No se encontró referencia a Orden de Compra", details := Option.none }

/-- Python `data.get(key)` on the flat map: `None` both for an absent key
and for a stored null. -/
def dictGet (data : List (String × Value)) (key : String) : Value :=
  (data.lookup key).getD Value.none

/-- The numeric coercion of `_compare_values` (lines 320–321):
`float(v) if not isinstance(v, (int, float)) else v`. A Python `bool` is an
`int` subclass, so it passes through as 1/0; `none` models the caught
`ValueError`/`TypeError`. -/
def coerceNum : Value → Option ℚ
  | .num q => some q
  | .bool b => some (if b then 1 else 0)
  | .str s => pyFloat s
  | .none => Option.none

/-- `RulesEngine._compare_values` (lines 306–344). Total: the source wraps
everything in `try/except → False`, and each branch here is total. -/
def compare_values (value1 : Value) (operator : String) (value2 : Value) : Bool :=
  if value1 = Value.none then operator == "!=" && value2 != Value.none
  else if operator == "exists" then pyTrim (pyStr value1) != ""
  else if operator == "contains" then strContains (pyToLower (pyStr value1)) (pyToLower (pyStr value2))
  else if operator ∈ ([">", "<", ">=", "<=", "==", "!="] : List String) then
    match coerceNum value1, coerceNum value2 with
    | some num1, some num2 =>
      if operator == ">" then decide (num1 > num2)
      else if operator == "<" then decide (num1 < num2)
      else if operator == ">=" then decide (num1 ≥ num2)
      else if operator == "<=" then decide (num1 ≤ num2)
      else if operator == "==" then decide (num1 = num2)
      else decide (num1 ≠ num2)
    | _, _ =>
      if operator == "==" then pyStr value1 == pyStr value2
      else if operator == "!=" then pyStr value1 != pyStr value2
      else false
  else false

/-- `RulesEngine._evaluate_custom_rule` (lines 256–304). -/
def evaluate_custom_rule (rule : ValidationRule) (data : List (String × Value)) : RuleResult :=
  match rule.condicion with
  | Option.none =>
    { rule_id := rule.id, rule_name := rule.nombre, status := .skipped,
      message := "Regla sin condición definida", details := Option.none }
  | some condicion =>
    let field_value := dictGet data condicion.campo
    if field_value = Value.none then
      { rule_id := rule.id, rule_name := rule.nombre, status := .skipped,
        message := "Campo \x27" ++ condicion.campo ++ "\x27 no encontrado", details := Option.none }
    else if compare_values field_value condicion.operador condicion.valor then
      { rule_id := rule.id, rule_name := rule.nombre, status := .passed,
        message := "Condición cumplida: " ++ condicion.campo ++ " " ++ condicion.operador
          ++ " " ++ pyStr condicion.valor,
        details := Option.none }
    else
      { rule_id := rule.id, rule_name := rule.nombre, status := .failed,
        message := "Condición NO cumplida: " ++ pyStr field_value ++ " " ++ condicion.operador
          ++ " " ++ pyStr condicion.valor,
        details := some [("field", .str condicion.campo), ("actual_value", .val field_value),
          ("expected", .str (condicion.operador ++ " " ++ pyStr condicion.valor))] }

/-- `RulesEngine.validate` (lines 346–414). `now` models `datetime.now()`;
the `documents` argument, never read by the source, is dropped. -/
def validate (invoice_id : String) (now : ℕ) (xml_data : Option XMLInvoiceData)
    (custom_rules : List ValidationRule) (flat_data : List (String × Value)) :
    ValidationResult :=
  let results :=
    [evaluate_r001 xml_data, evaluate_r002 xml_data, evaluate_r003 xml_data,
     evaluate_r004 xml_data, evaluate_r005 xml_data]
    ++ custom_rules.map fun rule => evaluate_custom_rule rule flat_data
  let blocking_failures := results.enum.countP fun p =>
    p.2.status == RuleStatus.failed &&
      ((decide (p.1 < STATIC_RULES.length) &&
          ((STATIC_RULES.get? p.1).any fun r => r.tipo == RuleType.blocking)) ||
       (decide (p.1 ≥ STATIC_RULES.length) &&
          ((custom_rules.get? (p.1 - STATIC_RULES.length)).any fun r => r.tipo == RuleType.blocking)))
  let warnings := results.enum.countP fun p =>
    p.2.status == RuleStatus.failed &&
      ((decide (p.1 < STATIC_RULES.length) &&
          ((STATIC_RULES.get? p.1).any fun r => r.tipo == RuleType.warning)) ||
       (decide (p.1 ≥ STATIC_RULES.length) &&
          ((custom_rules.get? (p.1 - STATIC_RULES.length)).any fun r => r.tipo == RuleType.warning)))
  let passed := results.countP fun r => r.status == RuleStatus.passed
  { invoice_id := invoice_id,
    timestamp := now,
    results := results,
    blocking_failures := blocking_failures,
    warnings := warnings,
    passed := passed,
    can_submit := blocking_failures == 0 }

end Rules

/-! ## The reconciliation comparator (`src/main.py`) -/

namespace Recon

/-- The string normalization of `_parse_colombian_number` (lines 837–866):
everything between `s = str(value).strip()` and the final `float(s)`. -/
def colombianNormalize (value : String) : String :=
  let s := pyTrim value
  let s := pyTrim (pyReplace (pyReplace (pyReplace s "$" "") "COP" "") " " "")
  let has_dot := chContains s '.'
  let has_comma := chContains s ','
  if has_dot && has_comma then
    pyReplace (pyReplace s "." "") "," "."
  else if has_dot then
    let dot_count := countOcc s '.'
    if dot_count > 1 then pyReplace s "." ""
    else
      let parts := pySplitOn s "."
      if parts.length = 2 && (parts.getD 1 "").length = 3 && s.length > 6 then
        pyReplace s "." ""
      else s
  else if has_comma then pyReplace s "," "."
  else s

/-- `src/main.py` `_parse_colombian_number` (lines 831–867), on the string
`str(value)` (the source's first line is `s = str(value).strip()`). -/
def parse_colombian_number (value : String) : Option ℚ :=
  pyFloat (colombianNormalize value)

/-- `src/main.py` `_compare_values` (lines 870–928): returns the
`(match, match_type, notes)` triple. -/
def compare_values (xml_val oc_val : Value) (compare_type : String) (tolerance : ℚ) :
    Bool × String × Option String :=
  if xml_val = Value.none ∧ oc_val = Value.none then
    (true, "both_missing", some "Ambos valores están vacíos")
  else if xml_val = Value.none then (false, "missing_xml", some "Valor no encontrado en XML")
  else if oc_val = Value.none then (false, "missing_oc", some "Valor no extraído de la OC")
  else
    let xml_str := pyToLower (pyTrim (pyStr xml_val))
    let oc_str := pyToLower (pyTrim (pyStr oc_val))
    if compare_type = "exact" then
      if xml_str = oc_str then (true, "exact", Option.none)
      else if strContains oc_str xml_str || strContains xml_str oc_str then
        (true, "partial", some "Coincidencia parcial")
      else (false, "mismatch", some ("XML: " ++ pyStr xml_val ++ ", OC: " ++ pyStr oc_val))
    else if compare_type = "contains" then
      if strContains oc_str xml_str || strContains xml_str oc_str then
        (true, "exact", Option.none)
      else
        let xml_words := (pyWords xml_str).dedup
        let oc_words := (pyWords oc_str).dedup
        let overlap := xml_words.inter oc_words
        if (overlap.length : ℚ) ≥ (min xml_words.length oc_words.length : ℚ) * 0.5 then
          (true, "partial", some "Coincidencia parcial de palabras")
        else (false, "mismatch", some ("XML: " ++ pyStr xml_val ++ ", OC: " ++ pyStr oc_val))
    else if compare_type = "numeric" then
      match parse_colombian_number (pyStr xml_val), parse_colombian_number (pyStr oc_val) with
      | some xml_num, some oc_num =>
        if xml_num = oc_num then (true, "exact", Option.none)
        else if xml_num ≠ 0 then
          let diff_pct := |xml_num - oc_num| / |xml_num|
          if diff_pct ≤ tolerance then
            (true, "numeric_close", some ("Diferencia: " ++ format1f (diff_pct * 100) ++ "%"))
          else
            (false, "mismatch", some ("XML: $" ++ formatMoney xml_num ++ ", OC: $" ++ formatMoney oc_num))
        else
          (false, "mismatch", some ("XML: $" ++ formatMoney xml_num ++ ", OC: $" ++ formatMoney oc_num))
      | _, _ =>
        if xml_str = oc_str then (true, "exact", Option.none)
        else (false, "mismatch", some "No se pudo comparar numéricamente")
    else (false, "unknown", some "Tipo de comparación desconocido")

end Recon

/-! ## Spec-side formalization of the Colombian-number heuristic (claim C1)

Two definitions written from the claim's words, to be compared with the
source-derived `Recon.parse_colombian_number`: `claim_colombian_number`
follows the claim exactly ("exactly three **digits** follow it", strips
whitespace), and `spec_colombian_number` is the amended description
("exactly three **characters** follow it", strips space characters), -/

/-- The separator classification of the claim: both separators, only dots
(more than one), exactly one dot, only commas, or neither. -/
inductive SepShape where
  | bothDotComma
  | multiDot
  | singleDot
  | commaOnly
  | plain
deriving DecidableEq, Repr

def sepShape (s : String) : SepShape :=
  if chContains s '.' then
    if chContains s ',' then .bothDotComma
    else if countOcc s '.' > 1 then .multiDot
    else .singleDot
  else if chContains s ',' then .commaOnly
  else .plain

/-- The source's stripping step: trim, drop `$`, `COP` and space
characters, trim again. -/
def stripColombian (value : String) : String :=
  pyTrim (pyReplace (pyReplace (pyReplace (pyTrim value) "$" "") "COP" "") " " "")

/-- The claim's stripping step, as the claim words it: drop currency
symbols and all whitespace. -/
def stripClaim (value : String) : String :=
  String.mk ((pyReplace (pyReplace value "$" "") "COP" "").toList.filter fun c => !c.isWhitespace)

/-- "exactly three digits follow the (single) dot" — the claim's wording. -/
def threeDigitsAfterDot (s : String) : Bool :=
  let parts := pySplitOn s "."
  parts.length = 2 && (parts.getD 1 "").length = 3 && (parts.getD 1 "").toList.all Char.isDigit

/-- "exactly three characters follow the (single) dot" — what the source
checks (`len(parts[1]) == 3`). -/
def threeCharsAfterDot (s : String) : Bool :=
  let parts := pySplitOn s "."
  parts.length = 2 && (parts.getD 1 "").length = 3

/-- Claim C1's normalization, formalized as written: strip currency symbols
and whitespace, then dispatch on the separator shape, removing the single
dot only when exactly three digits follow it and the stripped string is
longer than six characters. -/
def claimNormalize (value : String) : String :=
  let s := stripClaim value
  match sepShape s with
  | .bothDotComma => pyReplace (pyReplace s "." "") "," "."
  | .multiDot => pyReplace s "." ""
  | .singleDot =>
    if threeDigitsAfterDot s && s.length > 6 then pyReplace s "." "" else s
  | .commaOnly => pyReplace s "," "."
  | .plain => s

/-- Claim C1 formalized as written. -/
def claim_colombian_number (value : String) : Option ℚ :=
  pyFloat (claimNormalize value)

/-- The amended normalization: as `claimNormalize` but with the source's
stripping (space characters, not all whitespace) and the three-characters
condition. -/
def specNormalize (value : String) : String :=
  let s := stripColombian value
  match sepShape s with
  | .bothDotComma => pyReplace (pyReplace s "." "") "," "."
  | .multiDot => pyReplace s "." ""
  | .singleDot =>
    if threeCharsAfterDot s && s.length > 6 then pyReplace s "." "" else s
  | .commaOnly => pyReplace s "," "."
  | .plain => s

/-- The amended claim C1, formalized. -/
def spec_colombian_number (value : String) : Option ℚ :=
  pyFloat (specNormalize value)

/-! ## Concrete fixtures used by the theorems' example parts -/

/-- `Python sum` agrees with `List.sum`. -/
theorem pySum_eq_sum (l : List ℚ) : pySum l = l.sum := by
  have aux : ∀ (l : List ℚ) (a : ℚ), l.foldl (· + ·) a = a + l.sum := by
    intro l
    induction l with
    | nil => intro a; simp
    | cons x xs ih => intro a; simp [List.foldl_cons, ih, List.sum_cons]; ring
  simpa using aux l 0

/-- An all-empty `PartyInfo`, as the parser's default. -/
def emptyParty : PartyInfo :=
  { company_id := "", registration_name := "", tax_level_code := Option.none,
    tax_scheme_id := Option.none, address_line := Option.none, city_name := Option.none,
    department := Option.none, country_code := Option.none, email := Option.none,
    phone := Option.none, supplier_assigned_account_id := Option.none }

def zeroTotals : MonetaryTotal :=
  { line_extension_amount := 0, tax_exclusive_amount := 0, tax_inclusive_amount := 0,
    allowance_total_amount := 0, charge_total_amount := 0, payable_amount := 0 }

/-- An output-tax entry with scheme `01`. -/
def ivaTax (pct amt : ℚ) : TaxDetail :=
  { tax_scheme_id := "01", tax_name := "IVA", taxable_amount := 100000,
    tax_percentage := pct, tax_amount := amt }

/-- A minimal parsed document for the concrete rule examples. -/
def baseDoc : XMLInvoiceData :=
  { invoice_number := "FE123", cufe := "cufe-0123456789-abcdef", issue_date := ⟨2024, 3, 1⟩,
    issue_time := Option.none, due_date := Option.none, currency_code := "COP",
    invoice_type_code := "01", notes := [], supplier := emptyParty, customer := emptyParty,
    payment_means := [], invoice_period := Option.none, authorization := Option.none,
    taxes := [], withholding_taxes := [], monetary_total := zeroTotals, total_discount := 0,
    total_charges := 0, prepaid_amount := 0, lines := [], line_count := 0,
    order_reference := Option.none, qr_code := Option.none, total_iva := 0,
    total_retenciones := 0, attachment_references := [], raw_xml_path := Option.none }

/-- subtotal 100000, one 19% IVA of 19000, no withholdings, payable 119000. -/
def docR003pass : XMLInvoiceData :=
  { baseDoc with
    monetary_total := { zeroTotals with line_extension_amount := 100000, payable_amount := 119000 },
    taxes := [ivaTax 19 19000] }

/-- As `docR003pass` but payable 125000 (difference 6000 > 1% tolerance). -/
def docR003fail : XMLInvoiceData :=
  { baseDoc with
    monetary_total := { zeroTotals with line_extension_amount := 100000, payable_amount := 125000 },
    taxes := [ivaTax 19 19000] }

/-- Two scheme-`01` entries: the first at 19%, a later one at 16%. -/
def docR004multi : XMLInvoiceData :=
  { baseDoc with taxes := [ivaTax 19 19000, ivaTax 16 16000] }

/-- One scheme-`01` entry at 16%. -/
def docR004wrong : XMLInvoiceData :=
  { baseDoc with taxes := [ivaTax 16 16000] }

/-- The separator dispatch of the source's normalization agrees with the
shape-classified dispatch of the (amended) claim. -/
theorem colombianDispatch_eq (s : String) :
    (if chContains s '.' && chContains s ',' then pyReplace (pyReplace s "." "") "," "."
     else if chContains s '.' then
       if countOcc s '.' > 1 then pyReplace s "." ""
       else
         if (pySplitOn s ".").length = 2 && ((pySplitOn s ".").getD 1 "").length = 3 &&
             s.length > 6 then
           pyReplace s "." ""
         else s
     else if chContains s ',' then pyReplace s "," "."
     else s) =
    (match sepShape s with
     | .bothDotComma => pyReplace (pyReplace s "." "") "," "."
     | .multiDot => pyReplace s "." ""
     | .singleDot => if threeCharsAfterDot s && s.length > 6 then pyReplace s "." "" else s
     | .commaOnly => pyReplace s "," "."
     | .plain => s) := by
  unfold sepShape threeCharsAfterDot
  cases hd : chContains s '.' <;> cases hc : chContains s ',' <;>
    simp only [hd, hc] <;> simp [Bool.and_assoc] <;>
    by_cases hn : 1 < countOcc s '.' <;> simp [hn]

/-- **C1 (counterexample).** On `"1234.5e6"` the parser and the claim's
description disagree: exactly one dot is present, the three characters
after it (`5e6`) are not all digits, and the stripped string has eight
characters; the source removes the dot anyway (it only counts characters,
`len(parts[1]) == 3`), yielding `12345e6 = 1.2345 × 10¹⁰`, while the
claim's description ("exactly three digits follow it") keeps the dot as a
decimal point, yielding `1234.5e6 = 1.2345 × 10⁹`. -/
theorem c1_counterexample :
    Recon.parse_colombian_number "1234.5e6" = some 12345000000 ∧
    claim_colombian_number "1234.5e6" = some 1234500000 ∧
    Recon.parse_colombian_number "1234.5e6" ≠ claim_colombian_number "1234.5e6" := by
  have hn : Recon.colombianNormalize "1234.5e6" = "12345e6" := by decide
  have hc : claimNormalize "1234.5e6" = "1234.5e6" := by decide
  have hp1 : pyFloatParse "12345e6" = some (false, ['1','2','3','4','5'], [], false, ['6']) := by
    decide
  have hp2 : pyFloatParse "1234.5e6" = some (false, ['1','2','3','4'], ['5'], false, ['6']) := by
    decide
  have h1 : Recon.parse_colombian_number "1234.5e6" = some 12345000000 := by
    simp only [Recon.parse_colombian_number, hn, pyFloat, hp1, Option.map_some', pyFloatVal]
    norm_num [show digitsVal ['1','2','3','4','5'] = 12345 from by decide,
      show digitsVal ['6'] = 6 from by decide, show digitsVal ([] : List Char) = 0 from rfl]
  have h2 : claim_colombian_number "1234.5e6" = some 1234500000 := by
    simp only [claim_colombian_number, hc, pyFloat, hp2, Option.map_some', pyFloatVal]
    norm_num [show digitsVal ['1','2','3','4'] = 1234 from by decide,
      show digitsVal ['5'] = 5 from by decide, show digitsVal ['6'] = 6 from by decide]
  refine ⟨h1, h2, ?_⟩
  rw [h1, h2]
  simp only [ne_eq, Option.some.injEq]
  norm_num

/-- **C1 (amended).** The Colombian-number parser strips `$`, `COP` and
space characters (plus surrounding whitespace) and then: with both `.` and
`,` present it removes the dots and makes the comma the decimal point; with
only dots and more than one of them it removes them all; with exactly one
dot it treats it as a decimal point unless exactly three characters follow
it and the stripped string is longer than six characters, in which case the
dot is removed; with only commas the comma becomes the decimal point. In
particular `"137.310.992"` parses to `137310992.0`, `"1.234,56"` to
`1234.56`, `"123.45"` to `123.45`, and `"$ 1.500.000 COP"` to `1500000.0`. -/
theorem c1_colombian_number_parsing :
    (∀ value : String, Recon.parse_colombian_number value = spec_colombian_number value)
    ∧ Recon.parse_colombian_number "137.310.992" = some 137310992
    ∧ Recon.parse_colombian_number "1.234,56" = some (1234.56 : ℚ)
    ∧ Recon.parse_colombian_number "123.45" = some (123.45 : ℚ)
    ∧ Recon.parse_colombian_number "$ 1.500.000 COP" = some 1500000 := by
  refine ⟨?_, ?_, ?_, ?_, ?_⟩
  · intro value
    simp only [Recon.parse_colombian_number, spec_colombian_number, Recon.colombianNormalize,
      specNormalize, stripColombian]
    rw [colombianDispatch_eq]
  · have hn : Recon.colombianNormalize "137.310.992" = "137310992" := by decide
    have hp : pyFloatParse "137310992" =
        some (false, ['1','3','7','3','1','0','9','9','2'], [], false, []) := by decide
    simp only [Recon.parse_colombian_number, hn, pyFloat, hp, Option.map_some', pyFloatVal]
    norm_num [show digitsVal ['1','3','7','3','1','0','9','9','2'] = 137310992 from by decide,
      show digitsVal ([] : List Char) = 0 from rfl]
  · have hn : Recon.colombianNormalize "1.234,56" = "1234.56" := by decide
    have hp : pyFloatParse "1234.56" =
        some (false, ['1','2','3','4'], ['5','6'], false, []) := by decide
    simp only [Recon.parse_colombian_number, hn, pyFloat, hp, Option.map_some', pyFloatVal]
    norm_num [show digitsVal ['1','2','3','4'] = 1234 from by decide,
      show digitsVal ['5','6'] = 56 from by decide,
      show digitsVal ([] : List Char) = 0 from rfl]
  · have hn : Recon.colombianNormalize "123.45" = "123.45" := by decide
    have hp : pyFloatParse "123.45" =
        some (false, ['1','2','3'], ['4','5'], false, []) := by decide
    simp only [Recon.parse_colombian_number, hn, pyFloat, hp, Option.map_some', pyFloatVal]
    norm_num [show digitsVal ['1','2','3'] = 123 from by decide,
      show digitsVal ['4','5'] = 45 from by decide,
      show digitsVal ([] : List Char) = 0 from rfl]
  · have hn : Recon.colombianNormalize "$ 1.500.000 COP" = "1500000" := by decide
    have hp : pyFloatParse "1500000" =
        some (false, ['1','5','0','0','0','0','0'], [], false, []) := by decide
    simp only [Recon.parse_colombian_number, hn, pyFloat, hp, Option.map_some', pyFloatVal]
    norm_num [show digitsVal ['1','5','0','0','0','0','0'] = 1500000 from by decide,
      show digitsVal ([] : List Char) = 0 from rfl]

/-! ## Claim C2 — rule R003 -/

/-- Claim C2's computed total: subtotal plus the sum of scheme-`01`
output-tax amounts minus the sum of all withholding-tax amounts. -/
def r003Calculated (doc : XMLInvoiceData) : ℚ :=
  doc.monetary_total.line_extension_amount
    + ((doc.taxes.filter fun t => t.tax_scheme_id == "01").map TaxDetail.tax_amount).sum
    - (doc.withholding_taxes.map TaxDetail.tax_amount).sum

/-- Claim C2's tolerance test: the computed/declared difference is within
1% of the payable amount. -/
def r003Within (doc : XMLInvoiceData) : Prop :=
  |r003Calculated doc - doc.monetary_total.payable_amount|
    ≤ 0.01 * doc.monetary_total.payable_amount

/-- **C2.** Rule R003 passes exactly when
|subtotal + total_iva − total_retenciones − payable| ≤ 0.01 · payable,
with total_iva the sum of scheme-`01` output-tax amounts and
total_retenciones the sum of all withholding-tax amounts; on failure the
details report the computed total, the declared total and their absolute
difference. In particular subtotal=100000, IVA=19000, retentions=0,
payable=119000 passes, and payable=125000 fails with reported
difference 6000. -/
theorem c2_r003_totals_consistency :
    (∀ doc : XMLInvoiceData,
      ((Rules.evaluate_r003 (some doc)).status = RuleStatus.passed ↔ r003Within doc) ∧
      ((Rules.evaluate_r003 (some doc)).status = RuleStatus.failed ↔ ¬ r003Within doc) ∧
      ((Rules.evaluate_r003 (some doc)).status = RuleStatus.failed →
        ((Rules.evaluate_r003 (some doc)).details.getD []).lookup "total_calculado"
            = some (.num (r003Calculated doc)) ∧
          ((Rules.evaluate_r003 (some doc)).details.getD []).lookup "total_factura"
            = some (.num doc.monetary_total.payable_amount) ∧
          ((Rules.evaluate_r003 (some doc)).details.getD []).lookup "diferencia"
            = some (.num |r003Calculated doc - doc.monetary_total.payable_amount|)))
    ∧ (Rules.evaluate_r003 (some docR003pass)).status = RuleStatus.passed
    ∧ (Rules.evaluate_r003 (some docR003fail)).status = RuleStatus.failed
    ∧ ((Rules.evaluate_r003 (some docR003fail)).details.getD []).lookup "diferencia"
        = some (.num 6000) := by
  have hgen : ∀ doc : XMLInvoiceData,
      ((Rules.evaluate_r003 (some doc)).status = RuleStatus.passed ↔ r003Within doc) ∧
      ((Rules.evaluate_r003 (some doc)).status = RuleStatus.failed ↔ ¬ r003Within doc) ∧
      ((Rules.evaluate_r003 (some doc)).status = RuleStatus.failed →
        ((Rules.evaluate_r003 (some doc)).details.getD []).lookup "total_calculado"
            = some (.num (r003Calculated doc)) ∧
          ((Rules.evaluate_r003 (some doc)).details.getD []).lookup "total_factura"
            = some (.num doc.monetary_total.payable_amount) ∧
          ((Rules.evaluate_r003 (some doc)).details.getD []).lookup "diferencia"
            = some (.num |r003Calculated doc - doc.monetary_total.payable_amount|)) := by
    intro doc
    have htr : (|doc.monetary_total.line_extension_amount
          + pySum ((doc.taxes.filter fun t => t.tax_scheme_id == "01").map TaxDetail.tax_amount)
          - pySum (doc.withholding_taxes.map TaxDetail.tax_amount)
          - doc.monetary_total.payable_amount|
          ≤ doc.monetary_total.payable_amount * 0.01) ↔ r003Within doc := by
      rw [r003Within, r003Calculated, pySum_eq_sum, pySum_eq_sum, mul_comm]
    refine ⟨?_, ?_, ?_⟩
    · rw [← htr]
      simp only [Rules.evaluate_r003]
      split
      · next h => simpa using h
      · next h => simpa using h
    · rw [← htr]
      simp only [Rules.evaluate_r003]
      split
      · next h => simp [h]
      · next h => simp [h]
    · simp only [Rules.evaluate_r003]
      split
      · intro h
        exact absurd h (by simp)
      · intro _
        refine ⟨?_, ?_, ?_⟩ <;>
          simp [List.lookup, pySum_eq_sum, r003Calculated]
  have hpass : r003Within docR003pass := by
    rw [r003Within, r003Calculated]
    simp [docR003pass, baseDoc, zeroTotals, ivaTax]
    norm_num
  have hfail : ¬ r003Within docR003fail := by
    rw [r003Within, r003Calculated]
    simp [docR003fail, baseDoc, zeroTotals, ivaTax]
    norm_num
  have hfailst : (Rules.evaluate_r003 (some docR003fail)).status = RuleStatus.failed :=
    (hgen docR003fail).2.1.mpr hfail
  refine ⟨hgen, (hgen docR003pass).1.mpr hpass, hfailst, ?_⟩
  have hd := ((hgen docR003fail).2.2 hfailst).2.2
  rw [hd]
  have : |r003Calculated docR003fail - docR003fail.monetary_total.payable_amount| = 6000 := by
    rw [r003Calculated]
    simp [docR003fail, baseDoc, zeroTotals, ivaTax]
    norm_num
  rw [this]

/-! ## Claim C5 — rule R004 -/

/-- One scheme-`01` entry at 19%. -/
def docR004right : XMLInvoiceData :=
  { baseDoc with taxes := [ivaTax 19 19000] }

/-- **C5 (counterexample).** The claim says R004 fails whenever *any*
scheme-`01` output-tax entry has a percentage other than 19.0. On a
document with two scheme-`01` entries — the first at 19%, a later one at
16% — an entry with a wrong percentage exists, yet R004 *passes*: the
source inspects only the first scheme-`01` entry
(`next((t for t in xml_data.taxes if t.tax_scheme_id == "01"), None)`). -/
theorem c5_counterexample :
    (∃ t ∈ docR004multi.taxes, t.tax_scheme_id = "01" ∧ t.tax_percentage ≠ 19) ∧
    (Rules.evaluate_r004 (some docR004multi)).status = RuleStatus.passed := by
  constructor
  · exact ⟨ivaTax 16 16000, by simp [docR004multi, baseDoc], by simp [ivaTax],
      by norm_num [ivaTax]⟩
  · simp [Rules.evaluate_r004, docR004multi, baseDoc, ivaTax, List.find?]
    norm_num

/-- **C5 (amended).** Rule R004, for every parsed invoice document: if
there are no output-tax entries, or none with scheme `01`, it is skipped;
otherwise it examines only the **first** output-tax entry with scheme `01`:
it passes when that entry's percentage is exactly 19.0 and fails otherwise,
reporting expected=19.0 in its details. In particular a lone 19% IVA entry
passes and a lone 16% entry fails with expected=19.0. -/
theorem c5_r004_first_iva_percentage :
    (∀ doc : XMLInvoiceData,
      (doc.taxes = [] → (Rules.evaluate_r004 (some doc)).status = RuleStatus.skipped) ∧
      (doc.taxes.find? (fun t => t.tax_scheme_id == "01") = Option.none →
        (Rules.evaluate_r004 (some doc)).status = RuleStatus.skipped) ∧
      (∀ t, doc.taxes.find? (fun t => t.tax_scheme_id == "01") = some t →
        ((Rules.evaluate_r004 (some doc)).status
            = (if t.tax_percentage = 19.0 then RuleStatus.passed else RuleStatus.failed)) ∧
        (t.tax_percentage ≠ 19.0 →
          (Rules.evaluate_r004 (some doc)).details
            = some [("iva_percent", .num t.tax_percentage), ("expected", .num 19.0)])))
    ∧ (Rules.evaluate_r004 (some docR004right)).status = RuleStatus.passed
    ∧ (Rules.evaluate_r004 (some docR004wrong)).status = RuleStatus.failed
    ∧ ((Rules.evaluate_r004 (some docR004wrong)).details.getD []).lookup "expected"
        = some (.num 19.0) := by
  refine ⟨fun doc => ⟨?_, ?_, ?_⟩, ?_, ?_, ?_⟩
  · intro h
    simp [Rules.evaluate_r004, h]
  · intro h
    by_cases he : doc.taxes.isEmpty <;> simp [Rules.evaluate_r004, he, h]
  · intro t ht
    have hmem := List.mem_of_find?_eq_some ht
    have hne : doc.taxes ≠ [] := List.ne_nil_of_mem hmem
    have he : doc.taxes.isEmpty = false := by
      simpa [List.isEmpty_iff] using hne
    constructor
    · by_cases hp : t.tax_percentage = 19.0 <;> simp [Rules.evaluate_r004, he, ht, hp]
    · intro hp
      simp [Rules.evaluate_r004, he, ht, hp]
  · simp [Rules.evaluate_r004, docR004right, baseDoc, ivaTax, List.find?]
    norm_num
  · simp [Rules.evaluate_r004, docR004wrong, baseDoc, ivaTax, List.find?]
    norm_num
  · simp [Rules.evaluate_r004, docR004wrong, baseDoc, ivaTax, List.find?]
    norm_num
    rfl

/-! ## Claims C4, C6, C8 — the parser -/

/-- Evaluation helper: a `pyFloat` value from its decomposition. -/
theorem pyFloat_eval (s : String) (t : Bool × List Char × List Char × Bool × List Char)
    (hp : pyFloatParse s = some t) (q : ℚ) (hv : pyFloatVal t = q) : pyFloat s = some q := by
  rw [pyFloat, hp, Option.map_some', hv]

/-- The kept tax lists and derived totals of a successful parse, read off
the construction site (lines 413–425 and 479–483 of `src/xml_parser.py`). -/
theorem parse_dian_xml_fields (today : PyDate) (refs : List AttachmentReference)
    (root : XmlElem) (d : XMLInvoiceData) (h : parse_dian_xml today refs root = some d) :
    d.taxes = ((et_findall root "cac:TaxTotal").map parse_tax).filter
      (fun tax => tax.tax_scheme_id ≠ "") ∧
    d.withholding_taxes = ((et_findall root "cac:WithholdingTaxTotal").map parse_tax).filter
      (fun tax => tax.tax_scheme_id ≠ "") ∧
    d.total_iva = pySum ((d.taxes.filter fun t => t.tax_scheme_id == "01").map (·.tax_amount)) ∧
    d.total_retenciones = pySum (d.withholding_taxes.map (·.tax_amount)) := by
  simp only [parse_dian_xml, bind, Option.bind] at h
  revert h
  cases he : (et_findall root "cac:InvoiceLine").mapM parse_invoice_line <;> intro h
  · simp at h
  · simp only [Option.some.injEq] at h
    subst h
    exact ⟨rfl, rfl, rfl, rfl⟩

def el (ns local_ : String) (text : Option String) (children : List XmlElem) : XmlElem :=
  ⟨clarkTag ns local_, [], text, children⟩

def cbcNS : String := "urn:oasis:names:specification:ubl:schema:xsd:CommonBasicComponents-2"

def cacNS : String := "urn:oasis:names:specification:ubl:schema:xsd:CommonAggregateComponents-2"

/-- A `TaxSubtotal` with base 100000 and the given scheme/percent/amount. -/
def taxSubElem (scheme pct amt : String) : XmlElem :=
  el cacNS "TaxSubtotal" Option.none [
    el cbcNS "TaxableAmount" (some "100000") [],
    el cbcNS "TaxAmount" (some amt) [],
    el cacNS "TaxCategory" Option.none [
      el cbcNS "Percent" (some pct) [],
      el cacNS "TaxScheme" Option.none [el cbcNS "ID" (some scheme) []]]]

def taxTotalElem (scheme pct amt : String) : XmlElem :=
  el cacNS "TaxTotal" Option.none [taxSubElem scheme pct amt]

def whTotalElem (scheme pct amt : String) : XmlElem :=
  el cacNS "WithholdingTaxTotal" Option.none [taxSubElem scheme pct amt]

/-- A bare `Invoice` element with no children at all. -/
def emptyInvoiceRoot : XmlElem :=
  ⟨"Invoice", [], Option.none, []⟩

/-- An invoice tree with an issue date, one 19% IVA TaxTotal of 19000, one
schemeless TaxTotal (to be discarded) and one ReteRenta withholding of
4000. -/
def sampleTaxRoot : XmlElem :=
  ⟨"Invoice", [], Option.none, [
    el cbcNS "IssueDate" (some "2024-03-01") [],
    taxTotalElem "01" "19.0" "19000",
    el cacNS "TaxTotal" Option.none [],
    whTotalElem "06" "4.0" "4000"]⟩

theorem pyFloat_100000 : pyFloat (pyReplace "100000" "," "") = some 100000 := by
  rw [show pyReplace "100000" "," "" = "100000" from rfl]
  exact pyFloat_eval _ (false, ['1','0','0','0','0','0'], [], false, []) (by decide) _ (by
    norm_num [pyFloatVal, show digitsVal ['1','0','0','0','0','0'] = 100000 from by decide,
      show digitsVal ([] : List Char) = 0 from rfl])

theorem pyFloat_19000 : pyFloat (pyReplace "19000" "," "") = some 19000 := by
  rw [show pyReplace "19000" "," "" = "19000" from rfl]
  exact pyFloat_eval _ (false, ['1','9','0','0','0'], [], false, []) (by decide) _ (by
    norm_num [pyFloatVal, show digitsVal ['1','9','0','0','0'] = 19000 from by decide,
      show digitsVal ([] : List Char) = 0 from rfl])

theorem pyFloat_19p0 : pyFloat (pyReplace "19.0" "," "") = some 19 := by
  rw [show pyReplace "19.0" "," "" = "19.0" from rfl]
  exact pyFloat_eval _ (false, ['1','9'], ['0'], false, []) (by decide) _ (by
    norm_num [pyFloatVal, show digitsVal ['1','9'] = 19 from by decide,
      show digitsVal ['0'] = 0 from by decide, show digitsVal ([] : List Char) = 0 from rfl])

theorem pyFloat_4000 : pyFloat (pyReplace "4000" "," "") = some 4000 := by
  rw [show pyReplace "4000" "," "" = "4000" from rfl]
  exact pyFloat_eval _ (false, ['4','0','0','0'], [], false, []) (by decide) _ (by
    norm_num [pyFloatVal, show digitsVal ['4','0','0','0'] = 4000 from by decide,
      show digitsVal ([] : List Char) = 0 from rfl])

theorem pyFloat_4p0 : pyFloat (pyReplace "4.0" "," "") = some 4 := by
  rw [show pyReplace "4.0" "," "" = "4.0" from rfl]
  exact pyFloat_eval _ (false, ['4'], ['0'], false, []) (by decide) _ (by
    norm_num [pyFloatVal, show digitsVal ['4'] = 4 from by decide,
      show digitsVal ['0'] = 0 from by decide, show digitsVal ([] : List Char) = 0 from rfl])

theorem parse_tax_01 : parse_tax (taxTotalElem "01" "19.0" "19000")
    = ⟨"01", "IVA", 100000, 19, 19000⟩ := by
  simp only [parse_tax,
    show et_find (taxTotalElem "01" "19.0" "19000") "cac:TaxSubtotal"
      = some (taxSubElem "01" "19.0" "19000") from rfl,
    Option.getD_some,
    show et_find (taxSubElem "01" "19.0" "19000") "cac:TaxCategory"
      = some (el cacNS "TaxCategory" Option.none [
          el cbcNS "Percent" (some "19.0") [],
          el cacNS "TaxScheme" Option.none [el cbcNS "ID" (some "01") []]]) from rfl,
    show et_find (el cacNS "TaxCategory" Option.none [
          el cbcNS "Percent" (some "19.0") [],
          el cacNS "TaxScheme" Option.none [el cbcNS "ID" (some "01") []]]) "cac:TaxScheme"
      = some (el cacNS "TaxScheme" Option.none [el cbcNS "ID" (some "01") []]) from rfl,
    find_float,
    show find_text (taxSubElem "01" "19.0" "19000") "cbc:TaxableAmount" "" = "100000" from rfl,
    show find_text (taxSubElem "01" "19.0" "19000") "cbc:TaxAmount" "" = "19000" from rfl,
    show find_text (el cacNS "TaxCategory" Option.none [
          el cbcNS "Percent" (some "19.0") [],
          el cacNS "TaxScheme" Option.none [el cbcNS "ID" (some "01") []]]) "cbc:Percent" ""
      = "19.0" from rfl,
    show find_text (el cacNS "TaxScheme" Option.none [el cbcNS "ID" (some "01") []]) "cbc:ID" ""
      = "01" from rfl,
    pyFloat_100000, pyFloat_19000, pyFloat_19p0]
  simp [tax_scheme_name, TAX_SCHEME_NAMES]

theorem parse_tax_06 : parse_tax (whTotalElem "06" "4.0" "4000")
    = ⟨"06", "ReteRenta", 100000, 4, 4000⟩ := by
  simp only [parse_tax,
    show et_find (whTotalElem "06" "4.0" "4000") "cac:TaxSubtotal"
      = some (taxSubElem "06" "4.0" "4000") from rfl,
    Option.getD_some,
    show et_find (taxSubElem "06" "4.0" "4000") "cac:TaxCategory"
      = some (el cacNS "TaxCategory" Option.none [
          el cbcNS "Percent" (some "4.0") [],
          el cacNS "TaxScheme" Option.none [el cbcNS "ID" (some "06") []]]) from rfl,
    show et_find (el cacNS "TaxCategory" Option.none [
          el cbcNS "Percent" (some "4.0") [],
          el cacNS "TaxScheme" Option.none [el cbcNS "ID" (some "06") []]]) "cac:TaxScheme"
      = some (el cacNS "TaxScheme" Option.none [el cbcNS "ID" (some "06") []]) from rfl,
    find_float,
    show find_text (taxSubElem "06" "4.0" "4000") "cbc:TaxableAmount" "" = "100000" from rfl,
    show find_text (taxSubElem "06" "4.0" "4000") "cbc:TaxAmount" "" = "4000" from rfl,
    show find_text (el cacNS "TaxCategory" Option.none [
          el cbcNS "Percent" (some "4.0") [],
          el cacNS "TaxScheme" Option.none [el cbcNS "ID" (some "06") []]]) "cbc:Percent" ""
      = "4.0" from rfl,
    show find_text (el cacNS "TaxScheme" Option.none [el cbcNS "ID" (some "06") []]) "cbc:ID" ""
      = "06" from rfl,
    pyFloat_100000, pyFloat_4000, pyFloat_4p0]
  rfl

/-- **C4.** For every parsed invoice document, `total_iva` is the sum of
the `tax_amount` of kept scheme-`01` output-tax entries and
`total_retenciones` the sum of all kept withholding-tax amounts. On the
sample tree (IVA 19000, one discarded schemeless entry, withholding 4000)
the parse yields `total_iva = 19000` and `total_retenciones = 4000`. -/
theorem c4_derived_totals :
    (∀ (today : PyDate) (refs : List AttachmentReference) (root : XmlElem)
        (d : XMLInvoiceData), parse_dian_xml today refs root = some d →
      d.total_iva
          = ((d.taxes.filter fun t => t.tax_scheme_id == "01").map TaxDetail.tax_amount).sum ∧
      d.total_retenciones = (d.withholding_taxes.map TaxDetail.tax_amount).sum)
    ∧ (∃ d, parse_dian_xml ⟨2026, 1, 1⟩ [] sampleTaxRoot = some d ∧
        d.total_iva = 19000 ∧ d.total_retenciones = 4000) := by
  constructor
  · intro today refs root d h
    obtain ⟨-, -, hiva, hret⟩ := parse_dian_xml_fields today refs root d h
    rw [hiva, hret, pySum_eq_sum, pySum_eq_sum]
    exact ⟨rfl, rfl⟩
  · cases hp : parse_dian_xml ⟨2026, 1, 1⟩ [] sampleTaxRoot with
    | none =>
      have : (parse_dian_xml ⟨2026, 1, 1⟩ [] sampleTaxRoot).isSome = true := by rfl
      rw [hp] at this
      simp at this
    | some d =>
      obtain ⟨htx, hwh, hiva, hret⟩ := parse_dian_xml_fields _ _ _ d hp
      have hfa : et_findall sampleTaxRoot "cac:TaxTotal"
          = [taxTotalElem "01" "19.0" "19000", el cacNS "TaxTotal" Option.none []] := by rfl
      have hfw : et_findall sampleTaxRoot "cac:WithholdingTaxTotal"
          = [whTotalElem "06" "4.0" "4000"] := by rfl
      have hdisc : parse_tax (el cacNS "TaxTotal" Option.none [])
          = ⟨"", "Tax-", 0, 0, 0⟩ := by rfl
      have htx2 : d.taxes = [⟨"01", "IVA", 100000, 19, 19000⟩] := by
        rw [htx, hfa]
        simp [parse_tax_01, hdisc]
      have hwh2 : d.withholding_taxes = [⟨"06", "ReteRenta", 100000, 4, 4000⟩] := by
        rw [hwh, hfw]
        simp [parse_tax_06]
      refine ⟨d, rfl, ?_, ?_⟩
      · rw [hiva, htx2]
        simp [pySum]
      · rw [hret, hwh2]
        simp [pySum]

/-- **C6 (counterexample).** The claim maps every unknown scheme ID to
`Otros`; the source's fallback is `f"Tax-{id}"`, with `Otros` reserved for
the literal `ZZ` entry of the table: a tax entry with scheme `99` resolves
to `Tax-99`, not `Otros`. -/
theorem c6_counterexample :
    (parse_tax (taxTotalElem "99" "5.0" "100")).tax_name = "Tax-99" ∧
    (parse_tax (taxTotalElem "99" "5.0" "100")).tax_name ≠ "Otros" := by
  constructor
  · rfl
  · intro h
    rw [show (parse_tax (taxTotalElem "99" "5.0" "100")).tax_name = "Tax-99" from rfl] at h
    simp at h

/-- **C6 (amended).** The scheme-name resolution maps `01`→IVA, `04`→INC,
`05`→ReteIVA, `06`→ReteRenta, `07`→ReteICA and `ZZ`→Otros, and every other
scheme ID to `"Tax-" ++ id`; a parsed tax entry's name is the resolution of
its scheme ID, and the parser keeps exactly the entries whose (trimmed)
scheme ID is non-empty. -/
theorem c6_tax_scheme_registry :
    tax_scheme_name "01" = "IVA" ∧ tax_scheme_name "04" = "INC"
    ∧ tax_scheme_name "05" = "ReteIVA" ∧ tax_scheme_name "06" = "ReteRenta"
    ∧ tax_scheme_name "07" = "ReteICA" ∧ tax_scheme_name "ZZ" = "Otros"
    ∧ (∀ id : String, id ∉ (["01", "04", "05", "06", "07", "ZZ"] : List String) →
        tax_scheme_name id = "Tax-" ++ id)
    ∧ (∀ e : XmlElem, (parse_tax e).tax_name = tax_scheme_name (parse_tax e).tax_scheme_id)
    ∧ (∀ (today : PyDate) (refs : List AttachmentReference) (root : XmlElem)
        (d : XMLInvoiceData), parse_dian_xml today refs root = some d →
        d.taxes = ((et_findall root "cac:TaxTotal").map parse_tax).filter
          (fun tax => tax.tax_scheme_id ≠ "") ∧
        d.withholding_taxes = ((et_findall root "cac:WithholdingTaxTotal").map parse_tax).filter
          (fun tax => tax.tax_scheme_id ≠ "")) := by
  refine ⟨rfl, rfl, rfl, rfl, rfl, rfl, ?_, ?_, ?_⟩
  · intro id h
    simp only [List.mem_cons, List.mem_singleton, not_or] at h
    obtain ⟨h1, h2, h3, h4, h5, h6, -⟩ := h
    simp [tax_scheme_name, TAX_SCHEME_NAMES, List.lookup,
      beq_eq_false_iff_ne.mpr h1, beq_eq_false_iff_ne.mpr h2, beq_eq_false_iff_ne.mpr h3,
      beq_eq_false_iff_ne.mpr h4, beq_eq_false_iff_ne.mpr h5, beq_eq_false_iff_ne.mpr h6]
  · intro e
    simp only [parse_tax]
  · intro today refs root d h
    exact ⟨(parse_dian_xml_fields today refs root d h).1,
      (parse_dian_xml_fields today refs root d h).2.1⟩

/-- **C8 (counterexample).** Parsing is *not* a function of the input bytes
alone: when the document carries no parseable `IssueDate`, the parser
defaults the issue date to the ambient `date.today()` (line 488), so two
invocations on the same bytes with different current dates yield different
`InvoiceDocument` values. -/
theorem c8_counterexample :
    (parse_dian_xml ⟨2026, 1, 1⟩ [] emptyInvoiceRoot).map XMLInvoiceData.issue_date
      = some ⟨2026, 1, 1⟩ ∧
    (parse_dian_xml ⟨2026, 1, 2⟩ [] emptyInvoiceRoot).map XMLInvoiceData.issue_date
      = some ⟨2026, 1, 2⟩ ∧
    parse_dian_xml ⟨2026, 1, 1⟩ [] emptyInvoiceRoot
      ≠ parse_dian_xml ⟨2026, 1, 2⟩ [] emptyInvoiceRoot := by
  refine ⟨rfl, rfl, fun h => ?_⟩
  have h1 : (parse_dian_xml ⟨2026, 1, 1⟩ [] emptyInvoiceRoot).map XMLInvoiceData.issue_date
      = some ⟨2026, 1, 1⟩ := rfl
  rw [h, show (parse_dian_xml ⟨2026, 1, 2⟩ [] emptyInvoiceRoot).map XMLInvoiceData.issue_date
      = some ⟨2026, 1, 2⟩ from rfl] at h1
  simp at h1

/-- **C8 (amended).** The unwrap-and-parse operation is deterministic in
the input bytes *and the current date*: the clock enters only through the
issue-date default, so whenever the document carries a parseable
`IssueDate`, two invocations with arbitrary (possibly different) current
dates yield structurally identical `InvoiceDocument` values — as they do on
the same current date for any input. -/
theorem c8_parse_determinism :
    (∀ (t1 t2 : PyDate) (refs : List AttachmentReference) (root : XmlElem),
      parse_date (find_text root "cbc:IssueDate" "") ≠ Option.none →
      parse_dian_xml t1 refs root = parse_dian_xml t2 refs root)
    ∧ parse_dian_xml ⟨2026, 1, 1⟩ [] sampleTaxRoot
        = parse_dian_xml ⟨2026, 1, 2⟩ [] sampleTaxRoot := by
  have hgen : ∀ (t1 t2 : PyDate) (refs : List AttachmentReference) (root : XmlElem),
      parse_date (find_text root "cbc:IssueDate" "") ≠ Option.none →
      parse_dian_xml t1 refs root = parse_dian_xml t2 refs root := by
    intro t1 t2 refs root h
    obtain ⟨dd, hdd⟩ := Option.ne_none_iff_exists'.mp h
    simp only [parse_dian_xml, hdd, Option.getD_some]
  refine ⟨hgen, hgen _ _ _ _ ?_⟩
  rw [show parse_date (find_text sampleTaxRoot "cbc:IssueDate" "") = some ⟨2024, 3, 1⟩ from rfl]
  simp

/-! ## Claim C9 — the reconciliation comparator's zero guard -/

/-- **C9.** In the numeric comparison, the relative-difference division is
guarded by `xml_num != 0`: whenever the XML-side value parses to 0 under
the Colombian heuristic and the OCR-side value parses to a nonzero number,
the result is match=false with type `mismatch` for every tolerance — the
`numeric_close` branch is unreachable and no division by zero occurs. In
particular comparing `"0"` against `"5"` at 5% tolerance is a `mismatch`. -/
theorem c9_numeric_zero_guard :
    (∀ (v1 v2 : Value) (tol q : ℚ),
      Recon.parse_colombian_number (pyStr v1) = some 0 →
      Recon.parse_colombian_number (pyStr v2) = some q → q ≠ 0 →
      (Recon.compare_values v1 v2 "numeric" tol).1 = false ∧
      (Recon.compare_values v1 v2 "numeric" tol).2.1 = "mismatch")
    ∧ (Recon.compare_values (.str "0") (.str "5") "numeric" (5/100)).1 = false
    ∧ (Recon.compare_values (.str "0") (.str "5") "numeric" (5/100)).2.1 = "mismatch" := by
  have hgen : ∀ (v1 v2 : Value) (tol q : ℚ),
      Recon.parse_colombian_number (pyStr v1) = some 0 →
      Recon.parse_colombian_number (pyStr v2) = some q → q ≠ 0 →
      (Recon.compare_values v1 v2 "numeric" tol).1 = false ∧
      (Recon.compare_values v1 v2 "numeric" tol).2.1 = "mismatch" := by
    intro v1 v2 tol q h1 h2 hq
    have hv1 : v1 ≠ Value.none := by
      intro e
      rw [e, show Recon.parse_colombian_number (pyStr Value.none) = Option.none from rfl] at h1
      exact Option.noConfusion h1
    have hv2 : v2 ≠ Value.none := by
      intro e
      rw [e, show Recon.parse_colombian_number (pyStr Value.none) = Option.none from rfl] at h2
      exact Option.noConfusion h2
    simp only [Recon.compare_values, hv1, hv2, h1, h2,
      eq_false (by decide : ¬ ("numeric" : String) = "exact"),
      eq_false (by decide : ¬ ("numeric" : String) = "contains"),
      if_false, ite_false]
    norm_num [hq.symm]
  have h0 : Recon.parse_colombian_number (pyStr (Value.str "0")) = some 0 := by
    rw [show pyStr (Value.str "0") = "0" from rfl, Recon.parse_colombian_number,
      show Recon.colombianNormalize "0" = "0" from rfl]
    exact pyFloat_eval _ (false, ['0'], [], false, []) (by decide) _ (by
      norm_num [pyFloatVal, show digitsVal ['0'] = 0 from rfl,
        show digitsVal ([] : List Char) = 0 from rfl])
  have h5 : Recon.parse_colombian_number (pyStr (Value.str "5")) = some 5 := by
    rw [show pyStr (Value.str "5") = "5" from rfl, Recon.parse_colombian_number,
      show Recon.colombianNormalize "5" = "5" from rfl]
    exact pyFloat_eval _ (false, ['5'], [], false, []) (by decide) _ (by
      norm_num [pyFloatVal, show digitsVal ['5'] = 5 from by decide,
        show digitsVal ([] : List Char) = 0 from rfl])
  exact ⟨hgen, (hgen _ _ _ 5 h0 h5 (by norm_num)).1, (hgen _ _ _ 5 h0 h5 (by norm_num)).2⟩

/-! ## Claims C3 and C10 — `validate` aggregation and shape -/

/-- The index-based count that `validate` performs over the dynamic-rule
suffix (offset ≥ 5) agrees with severity-by-rule counting over the zip of
the rules with their results. -/
theorem countP_enumFrom_customs (tp : RuleType) (full statics : List ValidationRule)
    (g : ValidationRule → RuleResult) :
    ∀ (cs : List ValidationRule) (n : ℕ), 5 ≤ n →
      (∀ j, full.get? (n - 5 + j) = cs.get? j) →
      ((List.enumFrom n (cs.map g)).countP fun p =>
        p.2.status == RuleStatus.failed &&
          (decide (p.1 < 5) && Option.any (fun r => r.tipo == tp) (statics.get? p.1) ||
           decide (p.1 ≥ 5) && Option.any (fun r => r.tipo == tp) (full.get? (p.1 - 5))))
      = ((cs.zip (cs.map g)).countP fun p =>
          p.2.status == RuleStatus.failed && p.1.tipo == tp) := by
  intro cs
  induction cs with
  | nil =>
    intro n hn h
    simp [List.enumFrom]
  | cons c cs ih =>
    intro n hn h
    have h0 := h 0
    simp only [Nat.add_zero, List.get?_cons_zero] at h0
    have hlt : decide (n < 5) = false := decide_eq_false (Nat.not_lt.mpr hn)
    have hge : decide (n ≥ 5) = true := decide_eq_true hn
    have htl : ∀ j, full.get? (n + 1 - 5 + j) = cs.get? j := by
      intro j
      have := h (j + 1)
      simpa [show n - 5 + (j + 1) = n + 1 - 5 + j by omega] using this
    simp only [List.map_cons, List.enumFrom, List.countP_cons, List.zip_cons_cons,
      ih (n + 1) (by omega) htl, h0, hlt, hge, Option.any_some, Bool.false_and,
      Bool.true_and, Bool.false_or]

/-- **C3.** `validate` aggregates: `blocking_failures` counts the failed
rules whose declared severity (static rules by position, then the supplied
dynamic rules in order) is blocking; `warnings` the failed rules declared
warning; `passed` the passed rules of any severity; and `can_submit` holds
exactly when there are no blocking failures. -/
theorem c3_validate_aggregation :
    ∀ (invoice_id : String) (now : ℕ) (xml_data : Option XMLInvoiceData)
      (custom_rules : List ValidationRule) (flat_data : List (String × Value)),
      (Rules.validate invoice_id now xml_data custom_rules flat_data).blocking_failures
        = (((Rules.STATIC_RULES ++ custom_rules).zip
            (Rules.validate invoice_id now xml_data custom_rules flat_data).results).countP
              fun p => p.2.status == RuleStatus.failed && p.1.tipo == RuleType.blocking) ∧
      (Rules.validate invoice_id now xml_data custom_rules flat_data).warnings
        = (((Rules.STATIC_RULES ++ custom_rules).zip
            (Rules.validate invoice_id now xml_data custom_rules flat_data).results).countP
              fun p => p.2.status == RuleStatus.failed && p.1.tipo == RuleType.warning) ∧
      (Rules.validate invoice_id now xml_data custom_rules flat_data).passed
        = ((Rules.validate invoice_id now xml_data custom_rules flat_data).results.countP
            fun r => r.status == RuleStatus.passed) ∧
      ((Rules.validate invoice_id now xml_data custom_rules flat_data).can_submit = true ↔
        (Rules.validate invoice_id now xml_data custom_rules flat_data).blocking_failures = 0) := by
  intro iid now xml cs fd
  refine ⟨?_, ?_, ?_, ?_⟩
  · simp only [Rules.validate]
    rw [show Rules.STATIC_RULES.length = 5 from rfl]
    simp only [List.enum, Rules.STATIC_RULES, List.cons_append, List.nil_append, List.enumFrom,
      List.countP_cons, List.zip_cons_cons]
    rw [show (0 + 1 + 1 + 1 + 1 + 1 : ℕ) = 5 from rfl,
      show List.append ([] : List RuleResult)
          (List.map (fun rule => Rules.evaluate_custom_rule rule fd) cs)
        = List.map (fun rule => Rules.evaluate_custom_rule rule fd) cs from rfl,
      countP_enumFrom_customs RuleType.blocking cs _
        (fun rule => Rules.evaluate_custom_rule rule fd) cs 5 (by omega) (fun j => by simp)]
    simp [Rules.rule_R001, Rules.rule_R002, Rules.rule_R003, Rules.rule_R004, Rules.rule_R005]
  · simp only [Rules.validate]
    rw [show Rules.STATIC_RULES.length = 5 from rfl]
    simp only [List.enum, Rules.STATIC_RULES, List.cons_append, List.nil_append, List.enumFrom,
      List.countP_cons, List.zip_cons_cons]
    rw [show (0 + 1 + 1 + 1 + 1 + 1 : ℕ) = 5 from rfl,
      show List.append ([] : List RuleResult)
          (List.map (fun rule => Rules.evaluate_custom_rule rule fd) cs)
        = List.map (fun rule => Rules.evaluate_custom_rule rule fd) cs from rfl,
      countP_enumFrom_customs RuleType.warning cs _
        (fun rule => Rules.evaluate_custom_rule rule fd) cs 5 (by omega) (fun j => by simp)]
    simp [Rules.rule_R001, Rules.rule_R002, Rules.rule_R003, Rules.rule_R004, Rules.rule_R005]
  · rfl
  · simp only [Rules.validate]
    simp [Nat.beq_eq_true_eq]

theorem evaluate_r001_rule_id (x : Option XMLInvoiceData) :
    (Rules.evaluate_r001 x).rule_id = "R001" := by
  cases x <;> simp only [Rules.evaluate_r001] <;> first | rfl | (split <;> rfl)

theorem evaluate_r002_rule_id (x : Option XMLInvoiceData) :
    (Rules.evaluate_r002 x).rule_id = "R002" := by
  cases x <;> simp only [Rules.evaluate_r002] <;> first | rfl | (split <;> rfl)

theorem evaluate_r003_rule_id (x : Option XMLInvoiceData) :
    (Rules.evaluate_r003 x).rule_id = "R003" := by
  cases x <;> simp only [Rules.evaluate_r003] <;> first | rfl | (split <;> rfl)

theorem evaluate_r004_rule_id (x : Option XMLInvoiceData) :
    (Rules.evaluate_r004 x).rule_id = "R004" := by
  cases x <;> simp only [Rules.evaluate_r004] <;>
    first
      | rfl
      | (split
         · rfl
         · split
           · rfl
           · split <;> rfl)

theorem evaluate_r005_rule_id (x : Option XMLInvoiceData) :
    (Rules.evaluate_r005 x).rule_id = "R005" := by
  cases x <;> simp only [Rules.evaluate_r005] <;>
    first | rfl | (split <;> try rfl) <;> split <;> rfl

theorem evaluate_custom_rule_rule_id (r : ValidationRule) (data : List (String × Value)) :
    (Rules.evaluate_custom_rule r data).rule_id = r.id := by
  simp only [Rules.evaluate_custom_rule]
  split
  · rfl
  · split
    · rfl
    · split <;> rfl

/-- **C10.** A `validate` call with `n` dynamic rules returns exactly
`5 + n` rule results: the five static rules in the fixed order
R001–R005, followed by one result per dynamic rule in the order supplied
(each carrying that rule's id). -/
theorem c10_validate_result_shape :
    ∀ (invoice_id : String) (now : ℕ) (xml_data : Option XMLInvoiceData)
      (custom_rules : List ValidationRule) (flat_data : List (String × Value)),
      (Rules.validate invoice_id now xml_data custom_rules flat_data).results.length
          = 5 + custom_rules.length ∧
      (Rules.validate invoice_id now xml_data custom_rules flat_data).results.map
          RuleResult.rule_id
          = ["R001", "R002", "R003", "R004", "R005"] ++ custom_rules.map ValidationRule.id := by
  intro iid now xml cs fd
  constructor
  · simp [Rules.validate]
    omega
  · simp only [Rules.validate, List.map_append, List.map_cons, List.map_nil, List.map_map,
      evaluate_r001_rule_id, evaluate_r002_rule_id, evaluate_r003_rule_id,
      evaluate_r004_rule_id, evaluate_r005_rule_id]
    congr 1
    simp [Function.comp, evaluate_custom_rule_rule_id]

/-! ## Claim C7 — dynamic-rule evaluation -/

/-- **C7.** Dynamic-rule evaluation is total (the embedding of
`_evaluate_custom_rule`/`_compare_values` is a function into `RuleResult`;
the source's blanket `try/except` never lets an exception escape) and
resolves every rule as described: no condition ⇒ skipped; field absent or
null in the flat map ⇒ skipped; otherwise exactly passed or failed by the
comparator, where relational/equality operators first coerce both operands
numerically, fall back to string equality/inequality only for `==`/`!=`
when coercion fails, `contains` is case-insensitive substring containment,
and `exists` checks non-null and non-empty after trimming. -/
theorem c7_dynamic_rule_evaluation :
    (∀ (rule : ValidationRule) (data : List (String × Value)),
      rule.condicion = Option.none →
        (Rules.evaluate_custom_rule rule data).status = RuleStatus.skipped) ∧
    (∀ (rule : ValidationRule) (data : List (String × Value)) (c : RuleCondition),
      rule.condicion = some c →
        (Rules.dictGet data c.campo = Value.none →
          (Rules.evaluate_custom_rule rule data).status = RuleStatus.skipped) ∧
        (Rules.dictGet data c.campo ≠ Value.none →
          (Rules.evaluate_custom_rule rule data).status
            = (if Rules.compare_values (Rules.dictGet data c.campo) c.operador c.valor
                then RuleStatus.passed else RuleStatus.failed))) ∧
    (∀ v1 v2 : Value, v1 ≠ Value.none →
      Rules.compare_values v1 "contains" v2
        = strContains (pyToLower (pyStr v1)) (pyToLower (pyStr v2))) ∧
    (∀ v1 v2 : Value, v1 ≠ Value.none →
      Rules.compare_values v1 "exists" v2 = (pyTrim (pyStr v1) != "")) ∧
    (∀ (v1 v2 : Value) (op : String), v1 ≠ Value.none →
      op ∈ ([">", "<", ">=", "<=", "==", "!="] : List String) →
      (∀ n1 n2 : ℚ, Rules.coerceNum v1 = some n1 → Rules.coerceNum v2 = some n2 →
        Rules.compare_values v1 op v2 =
          (if op = ">" then decide (n1 > n2)
           else if op = "<" then decide (n1 < n2)
           else if op = ">=" then decide (n1 ≥ n2)
           else if op = "<=" then decide (n1 ≤ n2)
           else if op = "==" then decide (n1 = n2)
           else decide (n1 ≠ n2))) ∧
      ((Rules.coerceNum v1 = Option.none ∨ Rules.coerceNum v2 = Option.none) →
        Rules.compare_values v1 op v2 =
          (if op = "==" then pyStr v1 == pyStr v2
           else if op = "!=" then pyStr v1 != pyStr v2
           else false))) := by
  refine ⟨?_, ?_, ?_, ?_, ?_⟩
  · intro rule data h
    simp [Rules.evaluate_custom_rule, h]
  · intro rule data c hc
    constructor
    · intro h2
      simp [Rules.evaluate_custom_rule, hc, h2]
    · intro h2
      simp only [Rules.evaluate_custom_rule, hc, if_neg h2]
      split <;> simp_all
  · intro v1 v2 h1
    simp only [Rules.compare_values, if_neg h1,
      show (("contains" : String) == "exists") = false from by decide,
      Bool.false_eq_true, if_false,
      show (("contains" : String) == "contains") = true from by decide, if_true]
  · intro v1 v2 h1
    simp only [Rules.compare_values, if_neg h1,
      show (("exists" : String) == "exists") = true from by decide, if_true]
  · intro v1 v2 op h1 hop
    simp only [List.mem_cons, List.mem_singleton, List.not_mem_nil, or_false] at hop
    constructor
    · intro n1 n2 hn1 hn2
      rcases hop with rfl | rfl | rfl | rfl | rfl | rfl <;>
        simp only [Rules.compare_values, if_neg h1, hn1, hn2] <;> simp
    · intro hnone
      have hcases : ∀ (a : Option ℚ) (b : Option ℚ),
          Rules.coerceNum v1 = a → Rules.coerceNum v2 = b →
          (a = Option.none ∨ b = Option.none) →
          Rules.compare_values v1 op v2 =
            (if op = "==" then pyStr v1 == pyStr v2
             else if op = "!=" then pyStr v1 != pyStr v2
             else false) := by
        intro a b ha hb hab
        rcases hop with rfl | rfl | rfl | rfl | rfl | rfl <;>
          cases a <;> cases b <;>
          simp only [Rules.compare_values, if_neg h1, ha, hb] <;> simp_all
      rcases hnone with h | h
      · exact hcases _ (Rules.coerceNum v2) h rfl (Or.inl rfl)
      · exact hcases (Rules.coerceNum v1) _ rfl h (Or.inr rfl)

end Claro
